import Mathlib

/-!
# WAR: battle resolution and mission evaluation

A shallow embedding of `src/mestre.c` (the final version of the program; the
functions `selecionarTerritorio`, `atacar` and `validarAtaque` are textually
the same in `src/aventureiro.c`).

Conventions of the embedding

* The map (`struct Territorio* mapa` with `quantidade` entries) is a
  `List Territorio`; a pointer `&mapa[i]` is the index `i`.
* `char[]` strings are `String`; `strcmp(a, b) == 0` is `a = b` and
  `strcpy(dst, src)` is assignment.
* `int` is `Int`.  Two's-complement wrap-around (`wrap32`) is applied where a
  result can leave the 32-bit range (the troop sum of mission 4).
* `rand()` and `scanf` are inputs: the values they deliver are parameters, or
  are taken from the streams of `Entrada`.
* `printf` output is kept only where it distinguishes a branch
  (`MotivoRejeicao`, `Desfecho`, `Evento`).
* `verificarMissao` is embedded twice: as a function of the mission, the color
  and the map (`verificarMissao`), and statement by statement on a state that
  holds the memory and the stack slots of its locals (`chamarVerificarMissao`);
  `chamarVerificarMissao_spec` shows that the two agree.
-/

namespace War

/-! ## Data model -/

/-- The C `struct Territorio`: `nome[30]`, `cor[10]`, `tropas`. -/
structure Territorio where
  nome : String
  cor : String
  tropas : Int
  deriving DecidableEq, Repr

/-- A zero-filled territory, as `calloc` delivers it. -/
def Territorio.zero : Territorio := { nome := "", cor := "", tropas := 0 }

/-- Smallest value of a 32-bit `int`. -/
def INT_MIN : Int := -2147483648

/-- Largest value of a 32-bit `int`. -/
def INT_MAX : Int := 2147483647

/-- Reduction of an integer to the 32-bit two's-complement range. -/
def wrap32 (x : Int) : Int := (x + 2147483648) % 4294967296 - 2147483648

/-- Read through the pointer `&mapa[p]`. -/
def ler (mapa : List Territorio) (p : Nat) : Territorio := mapa.getD p Territorio.zero

/-- The assignment `strcpy(p->cor, c)`. -/
def setCor (mapa : List Territorio) (p : Nat) (c : String) : List Territorio :=
  mapa.set p { ler mapa p with cor := c }

/-- The assignment `p->tropas = v`. -/
def setTropas (mapa : List Territorio) (p : Nat) (v : Int) : List Territorio :=
  mapa.set p { ler mapa p with tropas := v }

/-! ## Mission catalog -/

def missaoConsecutivos : String := "Conquistar 3 territórios consecutivos"
def missaoEliminarVermelho : String := "Eliminar todas as tropas vermelhas do mapa"
def missaoQuatroTerritorios : String := "Controlar pelo menos 4 territórios"
def missaoTropas : String := "Ter mais de 2000 tropas no total"
def missaoTresCores : String := "Conquistar territórios de 3 cores diferentes"
def missaoRegiao : String := "Controlar todos os territórios de uma região"

/-- The global `missoesPredefinidas`. -/
def missoesPredefinidas : List String :=
  [missaoConsecutivos, missaoEliminarVermelho, missaoQuatroTerritorios,
   missaoTropas, missaoTresCores, missaoRegiao]

/-- The constant `TOTAL_MISSOES`. -/
def TOTAL_MISSOES : Nat := 6

/-- The function `atribuirMissao`: `rand() % totalMissoes` indexes the catalog and the text
found there is copied to the destination.  `r` is the value of `rand()`. -/
def atribuirMissao (missoes : List String) (totalMissoes : Nat) (r : Nat) : String :=
  missoes.getD (r % totalMissoes) ""

/-! ## Mission evaluation -/

/-- One pass of the loop body of mission 1 over the territory `t`; the state
is `(consecutivos, maxConsecutivos)`. -/
def passoConsecutivos (corJogador : String) (st : Nat × Nat) (t : Territorio) : Nat × Nat :=
  if t.cor = corJogador then
    let consecutivos := st.1 + 1
    if consecutivos > st.2 then (consecutivos, consecutivos) else (consecutivos, st.2)
  else
    (0, st.2)

/-- The loop of mission 1: final value of `maxConsecutivos`. -/
def maxConsecutivos (corJogador : String) (mapa : List Territorio) : Nat :=
  (mapa.foldl (passoConsecutivos corJogador) (0, 0)).2

/-- The loop of mission 2, with its early `return 0`. -/
def semVermelhos : List Territorio → Bool
  | [] => true
  | t :: resto =>
    if t.cor = "Vermelho" ∨ t.cor = "vermelho" then false else semVermelhos resto

/-- The counting loop of missions 3, 5 and 6: final value of
`territoriosControlados`. -/
def territoriosControlados (corJogador : String) (mapa : List Territorio) : Nat :=
  mapa.foldl (fun n t => if t.cor = corJogador then n + 1 else n) 0

/-- The loop of mission 4: final value of `totalTropas`, every `+=` reduced
to 32 bits. -/
def totalTropas (corJogador : String) (mapa : List Territorio) : Int :=
  mapa.foldl (fun s t => if t.cor = corJogador then wrap32 (s + t.tropas) else s) 0

/-- The function `verificarMissao`; the global `corJogador` is a parameter and `tamanho`
is the length of `mapa`. -/
def verificarMissao (missao : String) (corJogador : String) (mapa : List Territorio) : Bool :=
  if missao = "Conquistar 3 territórios consecutivos" then
    decide (maxConsecutivos corJogador mapa ≥ 3)
  else if missao = "Eliminar todas as tropas vermelhas do mapa" then
    semVermelhos mapa
  else if missao = "Controlar pelo menos 4 territórios" then
    decide (territoriosControlados corJogador mapa ≥ 4)
  else if missao = "Ter mais de 2000 tropas no total" then
    decide (totalTropas corJogador mapa > 2000)
  else if missao = "Conquistar territórios de 3 cores diferentes" then
    decide (territoriosControlados corJogador mapa ≥ 3)
  else if missao = "Controlar todos os territórios de uma região" then
    decide (territoriosControlados corJogador mapa ≥ mapa.length / 2)
  else
    false

/-! ## Selection, validation and attack -/

/-- The function `selecionarTerritorio`: `escolha` is the integer read by `scanf`. -/
def selecionarTerritorio (quantidade : Int) (escolha : Int) : Int :=
  if escolha < 1 ∨ escolha > quantidade then -1 else escolha - 1

/-- The die `rand() % 6 + 1`, for the value `r` of `rand()`. -/
def rolarDado (r : Nat) : Nat := r % 6 + 1

/-- Which of the three outcome messages `atacar` prints. -/
inductive Desfecho where
  /-- Message "VITÓRIA DO ATACANTE!", with the printed `tropasTransferidas`. -/
  | vitoriaAtacante (tropasTransferidas : Int)
  /-- Messages "VITÓRIA DO DEFENSOR!", "O atacante perdeu 1 tropa." -/
  | atacantePerdeuTropa
  /-- Messages "VITÓRIA DO DEFENSOR!", "O atacante não pode perder mais tropas (mínimo: 1)." -/
  | atacanteNoMinimo
  deriving DecidableEq, Repr

/-- The call `atacar(&mapa[atacante], &mapa[defensor])`, where `r1` and `r2` are the
two values of `rand()`.  The statements run in the order of the source, each
reading the map the previous ones left. -/
def atacar (mapa : List Territorio) (atacante defensor : Nat) (r1 r2 : Nat) :
    List Territorio × Desfecho :=
  let dadoAtacante := rolarDado r1
  let dadoDefensor := rolarDado r2
  if dadoAtacante > dadoDefensor then
    let m1 := setCor mapa defensor (ler mapa atacante).cor
    let tropasTransferidas := Int.tdiv (ler m1 atacante).tropas 2
    let m2 := setTropas m1 defensor tropasTransferidas
    let m3 := setTropas m2 atacante ((ler m2 atacante).tropas - tropasTransferidas)
    (m3, Desfecho.vitoriaAtacante tropasTransferidas)
  else if (ler mapa atacante).tropas > 1 then
    (setTropas mapa atacante ((ler mapa atacante).tropas - 1), Desfecho.atacantePerdeuTropa)
  else
    (mapa, Desfecho.atacanteNoMinimo)

/-- Which error message `validarAtaque` prints before `return 0`. -/
inductive MotivoRejeicao where
  /-- Message "Erro: Um território não pode atacar a si mesmo!" -/
  | SelfAttack
  /-- Message "Erro: Territórios aliados (%s) não podem se atacar!" -/
  | AlliedTerritories
  /-- Message "Erro: O atacante precisa ter pelo menos 2 tropas para atacar!" -/
  | InsufficientTroops
  deriving DecidableEq, Repr

/-- The call `validarAtaque(&mapa[atacante], &mapa[defensor])`: `Except.ok ()` is
`return 1`, `Except.error m` is `return 0` after the message `m`. -/
def validarAtaque (mapa : List Territorio) (atacante defensor : Nat) :
    Except MotivoRejeicao Unit :=
  if atacante = defensor then
    Except.error MotivoRejeicao.SelfAttack
  else if (ler mapa atacante).cor = (ler mapa defensor).cor then
    Except.error MotivoRejeicao.AlliedTerritories
  else if (ler mapa atacante).tropas < 2 then
    Except.error MotivoRejeicao.InsufficientTroops
  else
    Except.ok ()

/-! ## Battle loop -/

/-- The input the battle loop consumes. -/
structure Entrada where
  /-- The integers delivered, in order, to the `scanf("%d")` of
  `selecionarTerritorio`. -/
  escolhas : List Int
  /-- The values `rand()` returns, in order. -/
  rands : List Nat
  /-- The characters delivered, in order, to `scanf(" %c", &opcao)`. -/
  opcoes : List Char
  deriving DecidableEq, Repr

/-- What the battle loop does and shows, in order. -/
inductive Evento where
  /-- The call `exibirTerritorios(mapa, quantidade)` at the top of an iteration. -/
  | exibirMapa
  /-- The banner "PARABÉNS! MISSÃO CUMPRIDA!". -/
  | missaoCumprida
  /-- A call of `selecionarTerritorio` that read `escolha` and returned `indice`. -/
  | selecao (escolha : Int) (indice : Int)
  /-- A call of `validarAtaque` that returned 0 after the message `m`. -/
  | ataqueRejeitado (m : MotivoRejeicao)
  /-- A call of `atacar` with the dice shown and the outcome printed. -/
  | batalha (dadoAtacante dadoDefensor : Nat) (d : Desfecho)
  /-- The prompt "Deseja realizar outro ataque? (s/n)" and the answer read. -/
  | perguntaContinuar (opcao : Char)
  deriving DecidableEq, Repr

/-- How one pass through the body of `while (continuar)` ends. -/
inductive Passo where
  /-- A `break` after the mission was found fulfilled. -/
  | vitoria
  /-- A `continue`, or the end of the body with `continuar` still 1. -/
  | repetir
  /-- The end of the body after `continuar = 0`. -/
  | encerrar
  deriving DecidableEq, Repr

/-- The state after one pass through the body of the loop. -/
structure Iteracao where
  passo : Passo
  mapa : List Territorio
  entrada : Entrada
  eventos : List Evento
  deriving DecidableEq, Repr

/-- One pass through the body of `while (continuar)` in `gerenciarBatalhas`;
`none` when a read finds its stream empty. -/
def iteracao (missao corJogador : String) (mapa : List Territorio) (ent : Entrada) :
    Option Iteracao :=
  if verificarMissao missao corJogador mapa then
    some ⟨Passo.vitoria, mapa, ent, [Evento.exibirMapa, Evento.missaoCumprida]⟩
  else
    match ent.escolhas with
    | [] => none
    | c1 :: es1 =>
      let indiceAtacante := selecionarTerritorio mapa.length c1
      if indiceAtacante = -1 then
        some ⟨Passo.repetir, mapa, { ent with escolhas := es1 },
          [Evento.exibirMapa, Evento.selecao c1 indiceAtacante]⟩
      else
        match es1 with
        | [] => none
        | c2 :: es2 =>
          let indiceDefensor := selecionarTerritorio mapa.length c2
          if indiceDefensor = -1 then
            some ⟨Passo.repetir, mapa, { ent with escolhas := es2 },
              [Evento.exibirMapa, Evento.selecao c1 indiceAtacante,
               Evento.selecao c2 indiceDefensor]⟩
          else
            match validarAtaque mapa indiceAtacante.toNat indiceDefensor.toNat with
            | Except.error m =>
              some ⟨Passo.repetir, mapa, { ent with escolhas := es2 },
                [Evento.exibirMapa, Evento.selecao c1 indiceAtacante,
                 Evento.selecao c2 indiceDefensor, Evento.ataqueRejeitado m]⟩
            | Except.ok _ =>
              match ent.rands with
              | r1 :: r2 :: rs =>
                let res := atacar mapa indiceAtacante.toNat indiceDefensor.toNat r1 r2
                let antes := [Evento.exibirMapa, Evento.selecao c1 indiceAtacante,
                  Evento.selecao c2 indiceDefensor,
                  Evento.batalha (rolarDado r1) (rolarDado r2) res.2]
                if verificarMissao missao corJogador res.1 then
                  some ⟨Passo.vitoria, res.1,
                    { escolhas := es2, rands := rs, opcoes := ent.opcoes },
                    antes ++ [Evento.missaoCumprida]⟩
                else
                  match ent.opcoes with
                  | [] => none
                  | opcao :: os =>
                    some ⟨if opcao = 'n' ∨ opcao = 'N' then Passo.encerrar else Passo.repetir,
                      res.1, { escolhas := es2, rands := rs, opcoes := os },
                      antes ++ [Evento.perguntaContinuar opcao]⟩
              | _ => none

/-- How `gerenciarBatalhas` leaves its loop. -/
inductive Termino where
  /-- Through a `break`, the mission fulfilled. -/
  | Victory
  /-- Through `continuar = 0`, the user having answered `n` or `N`. -/
  | UserStopped
  deriving DecidableEq, Repr

/-- The state when `gerenciarBatalhas` returns. -/
structure Fim where
  termino : Termino
  mapa : List Territorio
  entrada : Entrada
  eventos : List Evento
  deriving DecidableEq, Repr

/-- The loop `while (continuar)`, run for at most `passos` iterations;
`eventos` is what happened before. -/
def laco (missao corJogador : String) :
    Nat → List Territorio → Entrada → List Evento → Option Fim
  | 0, _, _, _ => none
  | passos + 1, mapa, ent, eventos =>
    match iteracao missao corJogador mapa ent with
    | none => none
    | some it =>
      match it.passo with
      | Passo.vitoria => some ⟨Termino.Victory, it.mapa, it.entrada, eventos ++ it.eventos⟩
      | Passo.encerrar => some ⟨Termino.UserStopped, it.mapa, it.entrada, eventos ++ it.eventos⟩
      | Passo.repetir => laco missao corJogador passos it.mapa it.entrada (eventos ++ it.eventos)

/-- The call `gerenciarBatalhas(mapa, quantidade)` on the input `ent`.  Every
iteration that does not leave the loop reads at least one selection, so
`ent.escolhas.length + 1` iterations are never exceeded; `none` when the
input ends before the loop does. -/
def gerenciarBatalhas (missao corJogador : String) (mapa : List Territorio) (ent : Entrada) :
    Option Fim :=
  laco missao corJogador (ent.escolhas.length + 1) mapa ent []

/-! ## Registry creation -/

/-- The call `alocarTerritorios(quantidade)` when `calloc` succeeds: `quantidade`
zero-filled territories. -/
def alocarTerritorios (quantidade : Nat) : List Territorio :=
  List.replicate quantidade Territorio.zero

/-- Which error message `main` prints before `return 1` while it creates the
map. -/
inductive ErroCriacao where
  /-- Message "Erro: Número de territórios deve ser maior que zero!" -/
  | InvalidSize
  /-- Message "Erro: Não foi possível alocar memória para os territórios!" -/
  | AllocationFailure
  deriving DecidableEq, Repr

/-- The creation of the map in `main`: `quantidade` is the integer read by
`scanf` and `callocOk` tells whether `calloc` delivers the memory.
`Except.error (e, s)` is `return s` from `main` after the message `e`, no map
having been created. -/
def criarMapa (quantidade : Int) (callocOk : Bool) :
    Except (ErroCriacao × Int) (List Territorio) :=
  if quantidade ≤ 0 then
    Except.error (ErroCriacao.InvalidSize, 1)
  else if callocOk then
    Except.ok (alocarTerritorios quantidade.toNat)
  else
    Except.error (ErroCriacao.AllocationFailure, 1)

/-! ## Mission evaluation as a step on the memory -/

/-- The memory a call of `verificarMissao` can reach: the globals
`missaoJogador` and `corJogador`, and the map its pointer argument designates. -/
structure Memoria where
  missaoJogador : String
  corJogador : String
  mapa : List Territorio
  deriving DecidableEq, Repr

/-- The stack slots of the local variables of `verificarMissao`.  They are
not cleared between calls: a call finds in them what the last call left. -/
structure Locais where
  consecutivos : Nat
  maxConsecutivos : Nat
  territoriosControlados : Nat
  totalTropas : Int
  deriving DecidableEq, Repr

/-- The whole state a call of `verificarMissao` runs on. -/
structure Estado where
  mem : Memoria
  loc : Locais
  deriving DecidableEq, Repr

/-- The body of the loop of mission 1 at index `i`, statement by statement:
`consecutivos++` and the conditional `maxConsecutivos = consecutivos`, or
`consecutivos = 0`. -/
def corpoConsecutivos (e : Estado) (i : Nat) : Estado :=
  if (ler e.mem.mapa i).cor = e.mem.corJogador then
    let e1 : Estado := { e with loc := { e.loc with consecutivos := e.loc.consecutivos + 1 } }
    if e1.loc.consecutivos > e1.loc.maxConsecutivos then
      { e1 with loc := { e1.loc with maxConsecutivos := e1.loc.consecutivos } }
    else
      e1
  else
    { e with loc := { e.loc with consecutivos := 0 } }

/-- The loop of mission 2 over the indices still to visit: `false` is the
`return 0` inside the loop, `true` the `return 1` after it.  The loop has no
assignment. -/
def procurarVermelho (e : Estado) : List Nat → Bool
  | [] => true
  | i :: resto =>
    if (ler e.mem.mapa i).cor = "Vermelho" ∨ (ler e.mem.mapa i).cor = "vermelho" then false
    else procurarVermelho e resto

/-- The body of the loop of missions 3, 5 and 6 at index `i`: the conditional
`territoriosControlados++`. -/
def corpoContagem (e : Estado) (i : Nat) : Estado :=
  if (ler e.mem.mapa i).cor = e.mem.corJogador then
    { e with loc := { e.loc with territoriosControlados := e.loc.territoriosControlados + 1 } }
  else
    e

/-- The body of the loop of mission 4 at index `i`: the conditional
`totalTropas += mapa[i].tropas`, reduced to 32 bits. -/
def corpoTropas (e : Estado) (i : Nat) : Estado :=
  if (ler e.mem.mapa i).cor = e.mem.corJogador then
    { e with loc :=
        { e.loc with totalTropas := wrap32 (e.loc.totalTropas + (ler e.mem.mapa i).tropas) } }
  else
    e

/-- The call `verificarMissao(missaoJogador, mapa, quantidade)` run statement
by statement on the state: the value returned and the state left.  Each branch
initialises its locals, runs its loop over the indices `0 .. tamanho - 1` and
tests the result; `tamanho` is the length of the map. -/
def chamarVerificarMissao (e : Estado) : Bool × Estado :=
  let tamanho := e.mem.mapa.length
  if e.mem.missaoJogador = "Conquistar 3 territórios consecutivos" then
    let e1 : Estado := { e with loc := { e.loc with consecutivos := 0 } }
    let e2 : Estado := { e1 with loc := { e1.loc with maxConsecutivos := 0 } }
    let e3 := (List.range tamanho).foldl corpoConsecutivos e2
    (decide (e3.loc.maxConsecutivos ≥ 3), e3)
  else if e.mem.missaoJogador = "Eliminar todas as tropas vermelhas do mapa" then
    (procurarVermelho e (List.range tamanho), e)
  else if e.mem.missaoJogador = "Controlar pelo menos 4 territórios" then
    let e1 : Estado := { e with loc := { e.loc with territoriosControlados := 0 } }
    let e2 := (List.range tamanho).foldl corpoContagem e1
    (decide (e2.loc.territoriosControlados ≥ 4), e2)
  else if e.mem.missaoJogador = "Ter mais de 2000 tropas no total" then
    let e1 : Estado := { e with loc := { e.loc with totalTropas := 0 } }
    let e2 := (List.range tamanho).foldl corpoTropas e1
    (decide (e2.loc.totalTropas > 2000), e2)
  else if e.mem.missaoJogador = "Conquistar territórios de 3 cores diferentes" then
    let e1 : Estado := { e with loc := { e.loc with territoriosControlados := 0 } }
    let e2 := (List.range tamanho).foldl corpoContagem e1
    (decide (e2.loc.territoriosControlados ≥ 3), e2)
  else if e.mem.missaoJogador = "Controlar todos os territórios de uma região" then
    let e1 : Estado := { e with loc := { e.loc with territoriosControlados := 0 } }
    let e2 := (List.range tamanho).foldl corpoContagem e1
    (decide (e2.loc.territoriosControlados ≥ tamanho / 2), e2)
  else
    (false, e)

/-! ## Quantities the statements use -/

/-- The troops of the territories of `mapa` owned by `P`, added up without
any bound. -/
def somaTropas (P : String) (mapa : List Territorio) : Int :=
  ((mapa.filter (fun t => t.cor = P)).map (fun t => t.tropas)).sum

/-! ## Concrete maps -/

/-- The three-territory map of the scenario of the specification. -/
def cenario : List Territorio :=
  [⟨"A", "Azul", 10⟩, ⟨"B", "Vermelho", 5⟩, ⟨"C", "Azul", 1⟩]

/-- A map on which the troops of Azul add up to `2^31`, one more than the
largest `int`. -/
def estouro : List Territorio :=
  [⟨"X", "Azul", 1073741824⟩, ⟨"Y", "Azul", 1073741824⟩, ⟨"Z", "Verde", 1⟩]

/-! ## Reading and writing through pointers -/

theorem length_setCor (mapa : List Territorio) (p : Nat) (c : String) :
    (setCor mapa p c).length = mapa.length := by
  simp [setCor]

theorem length_setTropas (mapa : List Territorio) (p : Nat) (v : Int) :
    (setTropas mapa p v).length = mapa.length := by
  simp [setTropas]

theorem ler_setCor_same (mapa : List Territorio) (p : Nat) (c : String)
    (hp : p < mapa.length) :
    ler (setCor mapa p c) p = { ler mapa p with cor := c } := by
  simp [ler, setCor, List.getD_eq_getElem?_getD, List.getElem?_set, hp]

theorem ler_setCor_ne (mapa : List Territorio) (p q : Nat) (c : String) (hpq : p ≠ q) :
    ler (setCor mapa p c) q = ler mapa q := by
  simp [ler, setCor, List.getD_eq_getElem?_getD, List.getElem?_set, hpq]

theorem ler_setTropas_same (mapa : List Territorio) (p : Nat) (v : Int)
    (hp : p < mapa.length) :
    ler (setTropas mapa p v) p = { ler mapa p with tropas := v } := by
  simp [ler, setTropas, List.getD_eq_getElem?_getD, List.getElem?_set, hp]

theorem ler_setTropas_ne (mapa : List Territorio) (p q : Nat) (v : Int) (hpq : p ≠ q) :
    ler (setTropas mapa p v) q = ler mapa q := by
  simp [ler, setTropas, List.getD_eq_getElem?_getD, List.getElem?_set, hpq]

/-- Truncating division by 2 is the floor of the half on non-negative integers. -/
theorem tdiv_two_eq_floor (a : Int) (h0 : 0 ≤ a) : Int.tdiv a 2 = ⌊(a : ℚ) / 2⌋ := by
  rw [Int.tdiv_eq_ediv h0 (by norm_num)]
  have h := Rat.floor_intCast_div_natCast a 2
  simpa using h.symm

/-- The arithmetic of `atacar` stays inside the 32-bit range: on a troop count
`a` that is an `int`, the half `a / 2`, the difference `a - a / 2` and, for
`a > 1`, the decrement `a - 1` are what two's-complement arithmetic gives. -/
theorem atacar_sem_overflow (a : Int) (hmin : INT_MIN ≤ a) (hmax : a ≤ INT_MAX) :
    wrap32 (Int.tdiv a 2) = Int.tdiv a 2 ∧
    wrap32 (a - Int.tdiv a 2) = a - Int.tdiv a 2 ∧
    (a > 1 → wrap32 (a - 1) = a - 1) := by
  unfold INT_MIN at hmin
  unfold INT_MAX at hmax
  have hd : Int.tdiv a 2 = if 0 ≤ a then a / 2 else -((-a) / 2) := by
    by_cases h : 0 ≤ a
    · rw [if_pos h, Int.tdiv_eq_ediv h (by norm_num)]
    · rw [if_neg h]
      have h2 : Int.tdiv (-(-a)) 2 = -(Int.tdiv (-a) 2) := Int.neg_tdiv (-a) 2
      rw [neg_neg] at h2
      rw [h2, Int.tdiv_eq_ediv (by omega) (by norm_num)]
  rw [hd]
  unfold wrap32
  split <;> omega

/-- The map `atacar` leaves when the attacker's die is the higher one and the
two pointers differ. -/
theorem atacar_vitoria (mapa : List Territorio) (atacante defensor r1 r2 : Nat)
    (hne : atacante ≠ defensor) (hwin : rolarDado r1 > rolarDado r2) :
    (atacar mapa atacante defensor r1 r2).1 =
      setTropas
        (setTropas (setCor mapa defensor (ler mapa atacante).cor) defensor
          (Int.tdiv (ler mapa atacante).tropas 2))
        atacante ((ler mapa atacante).tropas - Int.tdiv (ler mapa atacante).tropas 2) := by
  have h1 : ∀ c, ler (setCor mapa defensor c) atacante = ler mapa atacante :=
    fun c => ler_setCor_ne mapa defensor atacante c (Ne.symm hne)
  simp only [atacar, hwin, if_true, h1, ler_setTropas_ne _ defensor atacante _ (Ne.symm hne)]

/-- The map `atacar` leaves when the attacker's die is not the higher one. -/
theorem atacar_derrota (mapa : List Territorio) (atacante defensor r1 r2 : Nat)
    (hlose : rolarDado r1 ≤ rolarDado r2) :
    (atacar mapa atacante defensor r1 r2).1 =
      if (ler mapa atacante).tropas > 1 then
        setTropas mapa atacante ((ler mapa atacante).tropas - 1)
      else mapa := by
  have h : ¬ rolarDado r1 > rolarDado r2 := Nat.not_lt.mpr hlose
  simp only [atacar, h, if_false]
  split <;> rfl

/-! ## Attack resolution -/

/-- C1: when `atacar` resolves with the attack roll strictly greater than the
defense roll, for an attacker with `a ≥ 0` troops and a distinct defender, the
defender's owner becomes the attacker's owner, the defender's troops become
exactly `⌊a / 2⌋` (whatever they were before) and the attacker's troops
become `a - ⌊a / 2⌋`. -/
theorem C1_atacar_attacker_wins (mapa : List Territorio) (atacante defensor r1 r2 : Nat)
    (a : Int) (hA : atacante < mapa.length) (hD : defensor < mapa.length)
    (hne : atacante ≠ defensor) (ha : (ler mapa atacante).tropas = a) (h0 : 0 ≤ a)
    (hwin : rolarDado r1 > rolarDado r2) :
    (ler (atacar mapa atacante defensor r1 r2).1 defensor).cor = (ler mapa atacante).cor ∧
    (ler (atacar mapa atacante defensor r1 r2).1 defensor).tropas = ⌊(a : ℚ) / 2⌋ ∧
    (ler (atacar mapa atacante defensor r1 r2).1 atacante).tropas = a - ⌊(a : ℚ) / 2⌋ := by
  rw [atacar_vitoria mapa atacante defensor r1 r2 hne hwin, ha, tdiv_two_eq_floor a h0]
  have hD1 : defensor < (setCor mapa defensor (ler mapa atacante).cor).length := by
    rw [length_setCor]; exact hD
  have hA2 : atacante < (setTropas (setCor mapa defensor (ler mapa atacante).cor) defensor
      ⌊(a : ℚ) / 2⌋).length := by
    rw [length_setTropas, length_setCor]; exact hA
  refine ⟨?_, ?_, ?_⟩
  · rw [ler_setTropas_ne _ atacante defensor _ hne, ler_setTropas_same _ _ _ hD1,
      ler_setCor_same _ _ _ hD]
  · rw [ler_setTropas_ne _ atacante defensor _ hne, ler_setTropas_same _ _ _ hD1]
  · rw [ler_setTropas_same _ _ _ hA2]

/-- C1, the scenario of the specification: A (Azul, 10) attacks B (Vermelho, 5)
with rolls 6 against 1; afterwards B is owned by Azul with 5 troops and A has 5. -/
theorem C1_atacar_attacker_wins_witness :
    rolarDado 5 = 6 ∧ rolarDado 0 = 1 ∧
    (ler (atacar cenario 0 1 5 0).1 1).cor = "Azul" ∧
    (ler (atacar cenario 0 1 5 0).1 1).tropas = 5 ∧
    (ler (atacar cenario 0 1 5 0).1 0).tropas = 5 := by
  have h := C1_atacar_attacker_wins cenario 0 1 5 0 10 (by decide) (by decide) (by decide)
    (by decide) (by decide) (by decide)
  have hf : ⌊((10 : Int) : ℚ) / 2⌋ = 5 := by norm_num
  rw [hf] at h
  exact ⟨by decide, by decide, h.1, h.2.1, h.2.2⟩

/-- C2: when the attack roll is at most the defense roll (ties included), the
defender is left as it was, the attacker keeps its owner, and an attacker that
had `t ≥ 1` troops has `max 1 (t - 1)`; with exactly 1 troop it stays at 1. -/
theorem C2_atacar_defender_wins (mapa : List Territorio) (atacante defensor r1 r2 : Nat)
    (t : Int) (hA : atacante < mapa.length) (hne : atacante ≠ defensor)
    (ht : (ler mapa atacante).tropas = t) (h1 : 1 ≤ t)
    (hlose : rolarDado r1 ≤ rolarDado r2) :
    ler (atacar mapa atacante defensor r1 r2).1 defensor = ler mapa defensor ∧
    (ler (atacar mapa atacante defensor r1 r2).1 atacante).cor = (ler mapa atacante).cor ∧
    (ler (atacar mapa atacante defensor r1 r2).1 atacante).tropas = max 1 (t - 1) ∧
    (t = 1 → (ler (atacar mapa atacante defensor r1 r2).1 atacante).tropas = 1) := by
  rw [atacar_derrota mapa atacante defensor r1 r2 hlose, ht]
  by_cases hgt : t > 1
  · rw [if_pos hgt, ler_setTropas_ne _ atacante defensor _ hne, ler_setTropas_same _ _ _ hA]
    refine ⟨rfl, rfl, ?_, ?_⟩
    · show t - 1 = max 1 (t - 1)
      rw [max_eq_right (by omega)]
    · intro h; omega
  · rw [if_neg hgt]
    have h : t = 1 := by omega
    refine ⟨rfl, rfl, ?_, fun _ => by rw [ht, h]⟩
    rw [ht, h]; rfl

/-- C2 on the scenario map: C (Azul, 1 troop) attacks B and the rolls tie at 1;
B is unchanged and C stays at 1 troop. -/
theorem C2_atacar_defender_wins_witness :
    rolarDado 0 ≤ rolarDado 0 ∧
    ler (atacar cenario 2 1 0 0).1 1 = ⟨"B", "Vermelho", 5⟩ ∧
    (ler (atacar cenario 2 1 0 0).1 2).cor = "Azul" ∧
    (ler (atacar cenario 2 1 0 0).1 2).tropas = 1 := by
  have h := C2_atacar_defender_wins cenario 2 1 0 0 1 (by decide) (by decide) (by decide)
    (by decide) (by decide)
  exact ⟨by decide, h.1, h.2.1, h.2.2.2 rfl⟩

/-! ## Validation -/

/-- C3: for in-range indices `validarAtaque` accepts exactly when the indices
differ, the owners differ and the attacker has at least 2 troops; a rejection
names the first failing check in the order SelfAttack, AlliedTerritories,
InsufficientTroops.  So an attack of a territory on itself is SelfAttack
whatever the troops, and exactly 2 troops against another owner is accepted. -/
theorem C3_validarAtaque_checks (mapa : List Territorio) (i j : Nat)
    (hi : i < mapa.length) (hj : j < mapa.length) :
    (validarAtaque mapa i j = Except.ok () ↔
      i ≠ j ∧ (ler mapa i).cor ≠ (ler mapa j).cor ∧ 2 ≤ (ler mapa i).tropas) ∧
    (i = j → validarAtaque mapa i j = Except.error MotivoRejeicao.SelfAttack) ∧
    (i ≠ j → (ler mapa i).cor = (ler mapa j).cor →
      validarAtaque mapa i j = Except.error MotivoRejeicao.AlliedTerritories) ∧
    (i ≠ j → (ler mapa i).cor ≠ (ler mapa j).cor → (ler mapa i).tropas < 2 →
      validarAtaque mapa i j = Except.error MotivoRejeicao.InsufficientTroops) ∧
    (i ≠ j → (ler mapa i).cor ≠ (ler mapa j).cor → (ler mapa i).tropas = 2 →
      validarAtaque mapa i j = Except.ok ()) := by
  refine ⟨?_, ?_, ?_, ?_, ?_⟩
  · unfold validarAtaque
    by_cases h1 : i = j
    · simp [h1]
    · by_cases h2 : (ler mapa i).cor = (ler mapa j).cor
      · simp [h1, h2]
      · by_cases h3 : (ler mapa i).tropas < 2
        · simp [h1, h2, h3]
        · simp [h1, h2, h3]; omega
  · intro h1; simp [validarAtaque, h1]
  · intro h1 h2; simp [validarAtaque, h1, h2]
  · intro h1 h2 h3; simp [validarAtaque, h1, h2, h3]
  · intro h1 h2 h3; simp [validarAtaque, h1, h2, h3]

/-- C3 on the scenario map: A attacking itself is SelfAttack, A attacking C
(both Azul) is AlliedTerritories, C (1 troop) attacking B is
InsufficientTroops, and A attacking B is accepted; and X ("Azul", exactly 2
troops) attacking Y ("azul") is accepted, the owners differing in case. -/
theorem C3_validarAtaque_checks_witness :
    validarAtaque cenario 0 0 = Except.error MotivoRejeicao.SelfAttack ∧
    validarAtaque cenario 0 2 = Except.error MotivoRejeicao.AlliedTerritories ∧
    validarAtaque cenario 2 1 = Except.error MotivoRejeicao.InsufficientTroops ∧
    validarAtaque cenario 0 1 = Except.ok () ∧
    validarAtaque [⟨"X", "Azul", 2⟩, ⟨"Y", "azul", 1⟩] 0 1 = Except.ok () :=
  ⟨(C3_validarAtaque_checks cenario 0 0 (by decide) (by decide)).2.1 rfl,
   (C3_validarAtaque_checks cenario 0 2 (by decide) (by decide)).2.2.1 (by decide) (by decide),
   (C3_validarAtaque_checks cenario 2 1 (by decide) (by decide)).2.2.2.1 (by decide) (by decide)
     (by decide),
   (C3_validarAtaque_checks cenario 0 1 (by decide) (by decide)).1.mpr
     ⟨by decide, by decide, by decide⟩,
   (C3_validarAtaque_checks [⟨"X", "Azul", 2⟩, ⟨"Y", "azul", 1⟩] 0 1 (by decide)
     (by decide)).2.2.2.2 (by decide) (by decide) (by decide)⟩

/-! ## Battle loop: rejected selections -/

/-- C4: in an iteration of the battle loop that reaches the selection, when
the attacker's choice is out of `1..n`, or the defender's choice is, or
`validarAtaque` rejects the pair, the iteration ends in `repetir` (back to
selection) with the map exactly as it was; no value of `rand()` and no answer
to the continue prompt is consumed, and no battle and no continue prompt is
among its events. -/
theorem C4_rejected_selection_no_effect (missao corJogador : String)
    (mapa : List Territorio) (ent : Entrada) (c1 c2 : Int) (resto : List Int)
    (hm : verificarMissao missao corJogador mapa = false)
    (hrej :
      (ent.escolhas = c1 :: resto ∧ (c1 < 1 ∨ (mapa.length : Int) < c1)) ∨
      (ent.escolhas = c1 :: c2 :: resto ∧ 1 ≤ c1 ∧ c1 ≤ (mapa.length : Int) ∧
        ((c2 < 1 ∨ (mapa.length : Int) < c2) ∨
          validarAtaque mapa (c1 - 1).toNat (c2 - 1).toNat ≠ Except.ok ()))) :
    ∃ it, iteracao missao corJogador mapa ent = some it ∧
      it.passo = Passo.repetir ∧ it.mapa = mapa ∧
      it.entrada.escolhas = resto ∧
      it.entrada.rands = ent.rands ∧ it.entrada.opcoes = ent.opcoes ∧
      ∀ e ∈ it.eventos,
        (∀ dA dD d, e ≠ Evento.batalha dA dD d) ∧ (∀ o, e ≠ Evento.perguntaContinuar o) := by
  rcases hrej with ⟨he, hc1⟩ | ⟨he, h1, h1n, hrest⟩
  · have hs1 : selecionarTerritorio (mapa.length : Int) c1 = -1 := by
      simp [selecionarTerritorio, hc1]
    refine ⟨⟨Passo.repetir, mapa, { ent with escolhas := resto },
      [Evento.exibirMapa, Evento.selecao c1 (-1)]⟩, ?_, ?_⟩
    · simp [iteracao, hm, he, hs1]
    · simp
  · have hs1 : selecionarTerritorio (mapa.length : Int) c1 = c1 - 1 := by
      have : ¬ (c1 < 1 ∨ (mapa.length : Int) < c1) := by omega
      simp [selecionarTerritorio, this]
    have hs1ne : ¬ (c1 - 1 = -1) := by omega
    by_cases hc2 : c2 < 1 ∨ (mapa.length : Int) < c2
    · have hs2 : selecionarTerritorio (mapa.length : Int) c2 = -1 := by
        simp [selecionarTerritorio, hc2]
      refine ⟨⟨Passo.repetir, mapa, { ent with escolhas := resto },
        [Evento.exibirMapa, Evento.selecao c1 (c1 - 1), Evento.selecao c2 (-1)]⟩, ?_, ?_⟩
      · simp [iteracao, hm, he, hs1, hs2, hs1ne]
      · simp
    · have hs2 : selecionarTerritorio (mapa.length : Int) c2 = c2 - 1 := by
        simp [selecionarTerritorio, hc2]
      have hs2ne : ¬ (c2 - 1 = -1) := by omega
      have hv : validarAtaque mapa (c1 - 1).toNat (c2 - 1).toNat ≠ Except.ok () := by
        rcases hrest with h | h
        · exact absurd h hc2
        · exact h
      cases hva : validarAtaque mapa (c1 - 1).toNat (c2 - 1).toNat with
      | ok u => exact absurd hva hv
      | error m =>
        refine ⟨⟨Passo.repetir, mapa, { ent with escolhas := resto },
          [Evento.exibirMapa, Evento.selecao c1 (c1 - 1), Evento.selecao c2 (c2 - 1),
           Evento.ataqueRejeitado m]⟩, ?_, ?_⟩
        · simp only [iteracao, hm, he, hs1, hs2, hs1ne, hs2ne, hva, if_false, Bool.false_eq_true]
        · simp

/-- C4 on the scenario map with the mission "Controlar pelo menos 4
territórios" for Azul: the choices 1 and 1 (A attacking itself) are rejected
and leave the map and the other inputs as they were. -/
theorem C4_rejected_selection_no_effect_witness :
    ∃ it, iteracao missaoQuatroTerritorios "Azul" cenario ⟨[1, 1, 2], [5, 0], ['n']⟩ = some it ∧
      it.passo = Passo.repetir ∧ it.mapa = cenario ∧
      it.entrada.escolhas = [2] ∧
      it.entrada.rands = [5, 0] ∧ it.entrada.opcoes = ['n'] ∧
      ∀ e ∈ it.eventos,
        (∀ dA dD d, e ≠ Evento.batalha dA dD d) ∧ (∀ o, e ≠ Evento.perguntaContinuar o) :=
  C4_rejected_selection_no_effect missaoQuatroTerritorios "Azul" cenario
    ⟨[1, 1, 2], [5, 0], ['n']⟩ 1 1 [2] (by decide)
    (Or.inr ⟨rfl, by decide, by decide, Or.inr (by simp [validarAtaque])⟩)

/-! ## Troop counts across an attack -/

theorem ler_mem (mapa : List Territorio) (p : Nat) (hp : p < mapa.length) :
    ler mapa p ∈ mapa := by
  have h : ler mapa p = mapa[p] := by
    simp [ler, List.getD_eq_getElem?_getD, hp]
  rw [h]
  exact List.getElem_mem hp

theorem tropas_of_mem_setTropas (mapa : List Territorio) (p : Nat) (v : Int) (t : Territorio)
    (ht : t ∈ setTropas mapa p v) : t ∈ mapa ∨ t.tropas = v := by
  rcases List.mem_or_eq_of_mem_set ht with h | h
  · exact Or.inl h
  · exact Or.inr (by rw [h])

theorem tropas_of_mem_setCor (mapa : List Territorio) (p : Nat) (c : String) (t : Territorio)
    (ht : t ∈ setCor mapa p c) : t ∈ mapa ∨ t.tropas = (ler mapa p).tropas := by
  rcases List.mem_or_eq_of_mem_set ht with h | h
  · exact Or.inl h
  · exact Or.inr (by rw [h])

/-- What an accepted attack tells about the pair. -/
theorem validarAtaque_ok (mapa : List Territorio) (i j : Nat)
    (hv : validarAtaque mapa i j = Except.ok ()) :
    i ≠ j ∧ (ler mapa i).cor ≠ (ler mapa j).cor ∧ 2 ≤ (ler mapa i).tropas := by
  unfold validarAtaque at hv
  by_cases h1 : i = j
  · simp [h1] at hv
  · by_cases h2 : (ler mapa i).cor = (ler mapa j).cor
    · simp [h1, h2] at hv
    · by_cases h3 : (ler mapa i).tropas < 2
      · simp [h1, h2, h3] at hv
      · exact ⟨h1, h2, by omega⟩

/-- C5 as stated fails on the scenario of the specification: A (Azul, 10)
conquers B (Vermelho, 5) with rolls 6 against 1, and the two troop counts add
up to 10 afterwards, not to the 15 they added up to before. -/
theorem C5_counterexample :
    (ler cenario 0).cor ≠ (ler cenario 1).cor ∧ rolarDado 5 > rolarDado 0 ∧
    (ler (atacar cenario 0 1 5 0).1 0).tropas + (ler (atacar cenario 0 1 5 0).1 1).tropas = 10 ∧
    (ler cenario 0).tropas + (ler cenario 1).tropas = 15 ∧
    ¬ ((ler (atacar cenario 0 1 5 0).1 0).tropas + (ler (atacar cenario 0 1 5 0).1 1).tropas =
      (ler cenario 0).tropas + (ler cenario 1).tropas) := by
  decide

/-- C5, amended: when the attacker wins against a defender owned by a
different color, the troops of the two territories afterwards add up to the
troops the attacker had before (the defender's former troops are discarded);
the sum equals the sum before exactly when the defender had 0 troops. -/
theorem C5_attacker_wins_troop_sum (mapa : List Territorio) (atacante defensor r1 r2 : Nat)
    (hA : atacante < mapa.length) (hD : defensor < mapa.length)
    (hcor : (ler mapa atacante).cor ≠ (ler mapa defensor).cor)
    (hwin : rolarDado r1 > rolarDado r2) :
    (ler (atacar mapa atacante defensor r1 r2).1 atacante).tropas +
        (ler (atacar mapa atacante defensor r1 r2).1 defensor).tropas =
      (ler mapa atacante).tropas ∧
    ((ler (atacar mapa atacante defensor r1 r2).1 atacante).tropas +
        (ler (atacar mapa atacante defensor r1 r2).1 defensor).tropas =
      (ler mapa atacante).tropas + (ler mapa defensor).tropas ↔
      (ler mapa defensor).tropas = 0) := by
  have hne : atacante ≠ defensor := by
    intro h
    rw [h] at hcor
    exact hcor rfl
  have hD1 : defensor < (setCor mapa defensor (ler mapa atacante).cor).length := by
    rw [length_setCor]; exact hD
  have hA2 : atacante < (setTropas (setCor mapa defensor (ler mapa atacante).cor) defensor
      (Int.tdiv (ler mapa atacante).tropas 2)).length := by
    rw [length_setTropas, length_setCor]; exact hA
  rw [atacar_vitoria mapa atacante defensor r1 r2 hne hwin, ler_setTropas_same _ _ _ hA2,
    ler_setTropas_ne _ atacante defensor _ hne, ler_setTropas_same _ _ _ hD1]
  constructor
  · show (ler mapa atacante).tropas - Int.tdiv (ler mapa atacante).tropas 2 +
      Int.tdiv (ler mapa atacante).tropas 2 = (ler mapa atacante).tropas
    omega
  · show (ler mapa atacante).tropas - Int.tdiv (ler mapa atacante).tropas 2 +
      Int.tdiv (ler mapa atacante).tropas 2 = (ler mapa atacante).tropas +
        (ler mapa defensor).tropas ↔ (ler mapa defensor).tropas = 0
    constructor <;> intro h <;> omega

/-- C5, amended, on the scenario of the specification: after A conquers B the
two counts add up to A's former 10 troops. -/
theorem C5_attacker_wins_troop_sum_witness :
    (ler (atacar cenario 0 1 5 0).1 0).tropas + (ler (atacar cenario 0 1 5 0).1 1).tropas =
      (ler cenario 0).tropas :=
  (C5_attacker_wins_troop_sum cenario 0 1 5 0 (by decide) (by decide) (by decide)
    (by decide)).1

/-- C6: on a map where every territory has at least 1 troop, after an attack
that `validarAtaque` accepted, whatever the two rolls, every territory of the
map still has at least 1 troop. -/
theorem C6_troops_at_least_one_preserved (mapa : List Territorio)
    (atacante defensor r1 r2 : Nat)
    (hinv : ∀ t ∈ mapa, 1 ≤ t.tropas)
    (hA : atacante < mapa.length) (hD : defensor < mapa.length)
    (hv : validarAtaque mapa atacante defensor = Except.ok ()) :
    ∀ t ∈ (atacar mapa atacante defensor r1 r2).1, 1 ≤ t.tropas := by
  obtain ⟨hne, _, h2⟩ := validarAtaque_ok mapa atacante defensor hv
  have hdiv : Int.tdiv (ler mapa atacante).tropas 2 = (ler mapa atacante).tropas / 2 :=
    Int.tdiv_eq_ediv (by omega) (by norm_num)
  intro t ht
  by_cases hwin : rolarDado r1 > rolarDado r2
  · rw [atacar_vitoria mapa atacante defensor r1 r2 hne hwin] at ht
    rcases tropas_of_mem_setTropas _ _ _ _ ht with ht | ht
    · rcases tropas_of_mem_setTropas _ _ _ _ ht with ht | ht
      · rcases tropas_of_mem_setCor _ _ _ _ ht with ht | ht
        · exact hinv t ht
        · rw [ht]
          exact hinv _ (ler_mem mapa defensor hD)
      · rw [ht, hdiv]; omega
    · rw [ht, hdiv]; omega
  · rw [atacar_derrota mapa atacante defensor r1 r2 (Nat.not_lt.mp hwin)] at ht
    by_cases hgt : (ler mapa atacante).tropas > 1
    · rw [if_pos hgt] at ht
      rcases tropas_of_mem_setTropas _ _ _ _ ht with ht | ht
      · exact hinv t ht
      · rw [ht]; omega
    · rw [if_neg hgt] at ht
      exact hinv t ht

/-- C6 on a two-territory map: X (Azul, 2) attacks Y (Verde, 1) and wins;
both end with 1 troop. -/
theorem C6_troops_at_least_one_preserved_witness :
    1 ≤ (ler (atacar [⟨"X", "Azul", 2⟩, ⟨"Y", "Verde", 1⟩] 0 1 5 0).1 0).tropas ∧
    1 ≤ (ler (atacar [⟨"X", "Azul", 2⟩, ⟨"Y", "Verde", 1⟩] 0 1 5 0).1 1).tropas :=
  ⟨C6_troops_at_least_one_preserved [⟨"X", "Azul", 2⟩, ⟨"Y", "Verde", 1⟩] 0 1 5 0
      (by decide) (by decide) (by decide) rfl _ (by decide),
   C6_troops_at_least_one_preserved [⟨"X", "Azul", 2⟩, ⟨"Y", "Verde", 1⟩] 0 1 5 0
      (by decide) (by decide) (by decide) rfl _ (by decide)⟩

/-- C7: an attack that `validarAtaque` accepted always changes the map,
whatever the two dice: the attacker ends with strictly fewer troops than it
had, and the outcome is never the "attacker at the minimum, no change" one. -/
theorem C7_validated_attack_mutates (mapa : List Territorio)
    (atacante defensor r1 r2 : Nat)
    (hA : atacante < mapa.length) (hD : defensor < mapa.length)
    (hv : validarAtaque mapa atacante defensor = Except.ok ()) :
    1 ≤ rolarDado r1 ∧ rolarDado r1 ≤ 6 ∧ 1 ≤ rolarDado r2 ∧ rolarDado r2 ≤ 6 ∧
    (ler (atacar mapa atacante defensor r1 r2).1 atacante).tropas <
      (ler mapa atacante).tropas ∧
    (atacar mapa atacante defensor r1 r2).1 ≠ mapa ∧
    (atacar mapa atacante defensor r1 r2).2 ≠ Desfecho.atacanteNoMinimo := by
  obtain ⟨hne, _, h2⟩ := validarAtaque_ok mapa atacante defensor hv
  have hdiv : Int.tdiv (ler mapa atacante).tropas 2 = (ler mapa atacante).tropas / 2 :=
    Int.tdiv_eq_ediv (by omega) (by norm_num)
  have hlt : (ler (atacar mapa atacante defensor r1 r2).1 atacante).tropas <
      (ler mapa atacante).tropas := by
    by_cases hwin : rolarDado r1 > rolarDado r2
    · have hA2 : atacante < (setTropas (setCor mapa defensor (ler mapa atacante).cor) defensor
          (Int.tdiv (ler mapa atacante).tropas 2)).length := by
        rw [length_setTropas, length_setCor]; exact hA
      rw [atacar_vitoria mapa atacante defensor r1 r2 hne hwin, ler_setTropas_same _ _ _ hA2]
      show (ler mapa atacante).tropas - Int.tdiv (ler mapa atacante).tropas 2 <
        (ler mapa atacante).tropas
      rw [hdiv]; omega
    · have hgt : (ler mapa atacante).tropas > 1 := by omega
      rw [atacar_derrota mapa atacante defensor r1 r2 (Nat.not_lt.mp hwin), if_pos hgt,
        ler_setTropas_same _ _ _ hA]
      show (ler mapa atacante).tropas - 1 < (ler mapa atacante).tropas
      omega
  refine ⟨by unfold rolarDado; omega, by unfold rolarDado; omega, by unfold rolarDado; omega,
    by unfold rolarDado; omega, hlt, ?_, ?_⟩
  · intro h
    rw [h] at hlt
    exact lt_irrefl _ hlt
  · by_cases hwin : rolarDado r1 > rolarDado r2
    · simp [atacar, hwin]
    · have hgt : (ler mapa atacante).tropas > 1 := by omega
      simp [atacar, hwin, hgt]

/-- C7 on the scenario map: A (10 troops) attacks B and the rolls tie; A is
left with 9 troops. -/
theorem C7_validated_attack_mutates_witness :
    (ler (atacar cenario 0 1 0 0).1 0).tropas < (ler cenario 0).tropas ∧
    (atacar cenario 0 1 0 0).1 ≠ cenario ∧
    (atacar cenario 0 1 0 0).2 ≠ Desfecho.atacanteNoMinimo :=
  (C7_validated_attack_mutates cenario 0 1 0 0 (by decide) (by decide) rfl).2.2.2.2


/-! ## Mission evaluation -/

theorem ler_cons_zero (t : Territorio) (l : List Territorio) : ler (t :: l) 0 = t := rfl

theorem ler_cons_succ (t : Territorio) (l : List Territorio) (i : Nat) :
    ler (t :: l) (i + 1) = ler l i := by
  simp [ler]

/-- The loop of mission 1, started in the state `(c, m)` with `c ≤ m`, ends
with `maxConsecutivos ≥ 3` exactly when `m ≥ 3` already, or the run of `c`
carried into the list is continued by owned territories at its head up to
length 3, or the list has three owned territories in a row. -/
theorem foldl_passoConsecutivos_ge_three (cor : String) :
    ∀ (l : List Territorio) (c m : Nat), c ≤ m →
      (3 ≤ (l.foldl (passoConsecutivos cor) (c, m)).2 ↔
        3 ≤ m ∨
        (∃ k, k ≤ l.length ∧ (∀ i, i < k → (ler l i).cor = cor) ∧ 3 ≤ c + k) ∨
        (∃ i, i + 2 < l.length ∧ (ler l i).cor = cor ∧ (ler l (i + 1)).cor = cor ∧
          (ler l (i + 2)).cor = cor)) := by
  intro l
  induction l with
  | nil =>
    intro c m hcm
    simp only [List.foldl_nil, List.length_nil]
    constructor
    · intro h; exact Or.inl h
    · rintro (h | ⟨k, hk, _, h3⟩ | ⟨i, hi, _⟩)
      · exact h
      · omega
      · omega
  | cons t l ih =>
    intro c m hcm
    simp only [List.foldl_cons, List.length_cons]
    by_cases ho : t.cor = cor
    · have hstep : passoConsecutivos cor (c, m) t = (c + 1, max m (c + 1)) := by
        simp only [passoConsecutivos, ho, if_true]
        by_cases hgt : c + 1 > m
        · rw [if_pos hgt, max_eq_right (by omega)]
        · rw [if_neg hgt, max_eq_left (by omega)]
      rw [hstep, ih (c + 1) (max m (c + 1)) (le_max_right _ _)]
      constructor
      · rintro (h | ⟨k, hk, hall, h3⟩ | ⟨i, hi, h0, h1, h2⟩)
        · by_cases hm : 3 ≤ m
          · exact Or.inl hm
          · right; left
            refine ⟨1, by omega, ?_, ?_⟩
            · intro i hi
              have : i = 0 := by omega
              rw [this, ler_cons_zero]; exact ho
            · rcases le_max_iff.mp h with h | h <;> omega
        · right; left
          refine ⟨k + 1, by omega, ?_, by omega⟩
          intro i hi
          cases i with
          | zero => rw [ler_cons_zero]; exact ho
          | succ i => rw [ler_cons_succ]; exact hall i (by omega)
        · right; right
          exact ⟨i + 1, by omega, by rw [ler_cons_succ]; exact h0,
            by rw [ler_cons_succ]; exact h1, by rw [ler_cons_succ]; exact h2⟩
      · rintro (h | ⟨k, hk, hall, h3⟩ | ⟨i, hi, h0, h1, h2⟩)
        · exact Or.inl (le_trans h (le_max_left _ _))
        · cases k with
          | zero => exact Or.inl (le_trans (by omega) (le_max_left _ _))
          | succ k =>
            right; left
            refine ⟨k, by omega, ?_, by omega⟩
            intro i hi
            have := hall (i + 1) (by omega)
            rwa [ler_cons_succ] at this
        · cases i with
          | zero =>
            right; left
            refine ⟨2, by omega, ?_, by omega⟩
            intro i hi
            rw [ler_cons_succ] at h1 h2
            rcases (by omega : i = 0 ∨ i = 1) with h | h
            · rw [h]; exact h1
            · rw [h]; exact h2
          | succ i =>
            right; right
            rw [ler_cons_succ] at h0 h1 h2
            exact ⟨i, by omega, h0, h1, h2⟩
    · have hstep : passoConsecutivos cor (c, m) t = (0, m) := by
        simp only [passoConsecutivos, ho, if_false]
      rw [hstep, ih 0 m (Nat.zero_le _)]
      constructor
      · rintro (h | ⟨k, hk, hall, h3⟩ | ⟨i, hi, h0, h1, h2⟩)
        · exact Or.inl h
        · right; right
          exact ⟨1, by omega, by rw [ler_cons_succ]; exact hall 0 (by omega),
            by rw [ler_cons_succ]; exact hall 1 (by omega),
            by rw [ler_cons_succ]; exact hall 2 (by omega)⟩
        · right; right
          exact ⟨i + 1, by omega, by rw [ler_cons_succ]; exact h0,
            by rw [ler_cons_succ]; exact h1, by rw [ler_cons_succ]; exact h2⟩
      · rintro (h | ⟨k, hk, hall, h3⟩ | ⟨i, hi, h0, h1, h2⟩)
        · exact Or.inl h
        · cases k with
          | zero => exact Or.inl (by omega)
          | succ k =>
            have := hall 0 (by omega)
            rw [ler_cons_zero] at this
            exact absurd this ho
        · cases i with
          | zero =>
            rw [ler_cons_zero] at h0
            exact absurd h0 ho
          | succ i =>
            right; right
            rw [ler_cons_succ] at h0 h1 h2
            exact ⟨i, by omega, h0, h1, h2⟩


/-- C8: `verificarMissao` on the mission "Conquistar 3 territórios
consecutivos" is true exactly when some index `i` with `i + 2 < n` has the
territories `i`, `i + 1` and `i + 2` all owned by the player's color. -/
theorem C8_consecutive_three (mapa : List Territorio) (P : String) :
    verificarMissao "Conquistar 3 territórios consecutivos" P mapa = true ↔
      ∃ i, i + 2 < mapa.length ∧ (ler mapa i).cor = P ∧ (ler mapa (i + 1)).cor = P ∧
        (ler mapa (i + 2)).cor = P := by
  have h := foldl_passoConsecutivos_ge_three P mapa 0 0 (Nat.le_refl 0)
  simp only [verificarMissao, if_true, decide_eq_true_eq, maxConsecutivos, ge_iff_le]
  rw [h]
  constructor
  · rintro (h | ⟨k, hk, hall, h3⟩ | h)
    · omega
    · exact ⟨0, by omega, hall 0 (by omega), hall 1 (by omega), hall 2 (by omega)⟩
    · exact h
  · intro h
    exact Or.inr (Or.inr h)

theorem semVermelhos_iff (mapa : List Territorio) :
    semVermelhos mapa = true ↔ ∀ t ∈ mapa, t.cor ≠ "Vermelho" ∧ t.cor ≠ "vermelho" := by
  induction mapa with
  | nil => simp [semVermelhos]
  | cons t l ih =>
    by_cases h : t.cor = "Vermelho" ∨ t.cor = "vermelho"
    · simp only [semVermelhos, h, if_true, List.mem_cons, forall_eq_or_imp]
      constructor
      · intro hf; cases hf
      · rintro ⟨⟨h1, h2⟩, _⟩
        rcases h with h | h
        · exact absurd h h1
        · exact absurd h h2
    · simp only [semVermelhos, h, if_false, List.mem_cons, forall_eq_or_imp, ih]
      constructor
      · intro hr
        exact ⟨⟨fun h1 => h (Or.inl h1), fun h2 => h (Or.inr h2)⟩, hr⟩
      · intro hr
        exact hr.2

/-- C9: `verificarMissao` on the mission "Eliminar todas as tropas vermelhas do
mapa" is true exactly when no territory has owner "Vermelho" or "vermelho",
whatever the player's color.  Bound to "Azul", a map with one territory owned
by "vermelho" gives false, and gives true once that owner is replaced by any
value other than "Vermelho" and "vermelho". -/
theorem C9_eliminate_red (mapa : List Territorio) (P : String) :
    (verificarMissao "Eliminar todas as tropas vermelhas do mapa" P mapa = true ↔
      ∀ t ∈ mapa, t.cor ≠ "Vermelho" ∧ t.cor ≠ "vermelho") ∧
    (∀ Q : String, verificarMissao "Eliminar todas as tropas vermelhas do mapa" Q mapa =
      verificarMissao "Eliminar todas as tropas vermelhas do mapa" P mapa) ∧
    verificarMissao "Eliminar todas as tropas vermelhas do mapa" "Azul"
      [⟨"T", "vermelho", 3⟩] = false ∧
    (∀ c : String, c ≠ "Vermelho" → c ≠ "vermelho" →
      verificarMissao "Eliminar todas as tropas vermelhas do mapa" "Azul"
        (setCor [⟨"T", "vermelho", 3⟩] 0 c) = true) := by
  have hm : ∀ (Q : String) (m : List Territorio),
      verificarMissao "Eliminar todas as tropas vermelhas do mapa" Q m = semVermelhos m := by
    intro Q m
    have hne : ¬ ("Eliminar todas as tropas vermelhas do mapa" =
        "Conquistar 3 territórios consecutivos") := by decide
    simp only [verificarMissao, hne, if_false, if_true]
  refine ⟨?_, ?_, ?_, ?_⟩
  · rw [hm, semVermelhos_iff]
  · intro Q; rw [hm, hm]
  · rw [hm]; decide
  · intro c h1 h2
    rw [hm]
    simp [setCor, ler, semVermelhos, h1, h2]

theorem wrap32_emod (x : Int) : wrap32 x % 4294967296 = x % 4294967296 := by
  unfold wrap32; omega

theorem wrap32_range (x : Int) : INT_MIN ≤ wrap32 x ∧ wrap32 x ≤ INT_MAX := by
  unfold wrap32 INT_MIN INT_MAX; omega

theorem foldl_totalTropas (P : String) :
    ∀ (l : List Territorio) (s : Int), INT_MIN ≤ s ∧ s ≤ INT_MAX →
      (INT_MIN ≤ l.foldl (fun s t => if t.cor = P then wrap32 (s + t.tropas) else s) s ∧
        l.foldl (fun s t => if t.cor = P then wrap32 (s + t.tropas) else s) s ≤ INT_MAX) ∧
      (l.foldl (fun s t => if t.cor = P then wrap32 (s + t.tropas) else s) s) % 4294967296 =
        (s + somaTropas P l) % 4294967296 := by
  intro l
  induction l with
  | nil => intro s hs; simp [somaTropas, hs]
  | cons t l ih =>
    intro s hs
    simp only [List.foldl_cons]
    by_cases ho : t.cor = P
    · have h := ih (wrap32 (s + t.tropas)) (wrap32_range _)
      simp only [ho, if_true] at h ⊢
      refine ⟨h.1, ?_⟩
      rw [h.2]
      have hw := wrap32_emod (s + t.tropas)
      have hs : somaTropas P (t :: l) = t.tropas + somaTropas P l := by
        simp [somaTropas, List.filter_cons, ho]
      rw [hs]
      omega
    · have h := ih s hs
      have hs : somaTropas P (t :: l) = somaTropas P l := by
        simp [somaTropas, List.filter_cons, ho]
      simp only [ho, if_false] at h ⊢
      rw [hs]
      exact h

/-- C10: when the sum of the troops of the territories owned by `P` fits a
32-bit `int`, `verificarMissao` on the mission "Ter mais de 2000 tropas no
total" is true exactly when that sum is strictly greater than 2000; a sum of
exactly 2000 gives false.  Territories of other owners are not in the sum. -/
theorem C10_troop_threshold (mapa : List Territorio) (P : String)
    (hsum : INT_MIN ≤ somaTropas P mapa ∧ somaTropas P mapa ≤ INT_MAX) :
    (verificarMissao "Ter mais de 2000 tropas no total" P mapa = true ↔
      2000 < somaTropas P mapa) ∧
    (somaTropas P mapa = 2000 →
      verificarMissao "Ter mais de 2000 tropas no total" P mapa = false) := by
  have h1 : ¬ ("Ter mais de 2000 tropas no total" = "Conquistar 3 territórios consecutivos") := by decide
  have h2 : ¬ ("Ter mais de 2000 tropas no total" =
      "Eliminar todas as tropas vermelhas do mapa") := by decide
  have h3 : ¬ ("Ter mais de 2000 tropas no total" = "Controlar pelo menos 4 territórios") := by decide
  have hv : verificarMissao "Ter mais de 2000 tropas no total" P mapa =
      decide (totalTropas P mapa > 2000) := by
    simp only [verificarMissao, h1, h2, h3, if_false, if_true]
  have hf := foldl_totalTropas P mapa 0 (by unfold INT_MIN INT_MAX; omega)
  have heq : totalTropas P mapa = somaTropas P mapa := by
    unfold totalTropas
    unfold INT_MIN INT_MAX at hf hsum
    omega
  rw [hv, heq]
  constructor
  · simp
  · intro h; simp [h]

/-- C10 on a two-territory map: Azul owns 2000 troops and Verde 5000, so the
mission is not fulfilled for Azul; with 2001 troops it is. -/
theorem C10_troop_threshold_witness :
    verificarMissao "Ter mais de 2000 tropas no total" "Azul"
      [⟨"X", "Azul", 2000⟩, ⟨"Y", "Verde", 5000⟩] = false ∧
    verificarMissao "Ter mais de 2000 tropas no total" "Azul"
      [⟨"X", "Azul", 2001⟩, ⟨"Y", "Verde", 5000⟩] = true :=
  ⟨(C10_troop_threshold [⟨"X", "Azul", 2000⟩, ⟨"Y", "Verde", 5000⟩] "Azul"
      (by decide)).2 (by decide),
   (C10_troop_threshold [⟨"X", "Azul", 2001⟩, ⟨"Y", "Verde", 5000⟩] "Azul"
      (by decide)).1.mpr (by decide)⟩

/-! ## The counting missions -/

theorem foldl_territoriosControlados (P : String) :
    ∀ (l : List Territorio) (n : Nat),
      l.foldl (fun n t => if t.cor = P then n + 1 else n) n =
        n + (l.filter (fun t => t.cor = P)).length := by
  intro l
  induction l with
  | nil => intro n; simp
  | cons t l ih =>
    intro n
    simp only [List.foldl_cons]
    by_cases ho : t.cor = P
    · simp only [ho, if_true, ih, List.filter_cons, decide_True, List.length_cons]
      omega
    · simp only [ho, if_false, ih, List.filter_cons, decide_False]
      simp

/-- The counting loop of missions 3, 5 and 6 ends with the number of
territories whose owner is `P`. -/
theorem territoriosControlados_eq (P : String) (mapa : List Territorio) :
    territoriosControlados P mapa = (mapa.filter (fun t => t.cor = P)).length := by
  unfold territoriosControlados
  rw [foldl_territoriosControlados P mapa 0]
  omega

/-- C11: `verificarMissao` on the mission "Controlar todos os territórios de
uma região" is true exactly when the number of territories owned by `P` is at
least `n / 2` rounded down, `n` being the size of the map. -/
theorem C11_half_map (mapa : List Territorio) (P : String) :
    verificarMissao "Controlar todos os territórios de uma região" P mapa = true ↔
      mapa.length / 2 ≤ (mapa.filter (fun t => t.cor = P)).length := by
  have h1 : ¬ ("Controlar todos os territórios de uma região" =
      "Conquistar 3 territórios consecutivos") := by decide
  have h2 : ¬ ("Controlar todos os territórios de uma região" =
      "Eliminar todas as tropas vermelhas do mapa") := by decide
  have h3 : ¬ ("Controlar todos os territórios de uma região" =
      "Controlar pelo menos 4 territórios") := by decide
  have h4 : ¬ ("Controlar todos os territórios de uma região" =
      "Ter mais de 2000 tropas no total") := by decide
  have h5 : ¬ ("Controlar todos os territórios de uma região" =
      "Conquistar territórios de 3 cores diferentes") := by decide
  simp only [verificarMissao, h1, h2, h3, h4, h5, if_false, if_true, decide_eq_true_eq,
    ge_iff_le, territoriosControlados_eq]

/-- C12: `verificarMissao` on the mission "Conquistar territórios de 3 cores
diferentes" is true exactly when the number of territories owned by `P` is at
least 3.  The number of colors on the map plays no part: three territories of
the single color Azul fulfil it for Azul, and a map of four colors on which
Azul owns two territories does not. -/
theorem C12_three_colors_counts_territories (mapa : List Territorio) (P : String) :
    (verificarMissao "Conquistar territórios de 3 cores diferentes" P mapa = true ↔
      3 ≤ (mapa.filter (fun t => t.cor = P)).length) ∧
    verificarMissao "Conquistar territórios de 3 cores diferentes" "Azul"
      [⟨"X", "Azul", 1⟩, ⟨"Y", "Azul", 1⟩, ⟨"Z", "Azul", 1⟩] = true ∧
    verificarMissao "Conquistar territórios de 3 cores diferentes" "Azul"
      [⟨"X", "Azul", 1⟩, ⟨"Y", "Verde", 1⟩, ⟨"Z", "Vermelho", 1⟩, ⟨"W", "Preto", 1⟩,
       ⟨"V", "Azul", 1⟩] = false := by
  have h1 : ¬ ("Conquistar territórios de 3 cores diferentes" =
      "Conquistar 3 territórios consecutivos") := by decide
  have h2 : ¬ ("Conquistar territórios de 3 cores diferentes" =
      "Eliminar todas as tropas vermelhas do mapa") := by decide
  have h3 : ¬ ("Conquistar territórios de 3 cores diferentes" =
      "Controlar pelo menos 4 territórios") := by decide
  have h4 : ¬ ("Conquistar territórios de 3 cores diferentes" =
      "Ter mais de 2000 tropas no total") := by decide
  refine ⟨?_, by decide, by decide⟩
  simp only [verificarMissao, h1, h2, h3, h4, if_false, if_true, decide_eq_true_eq,
    ge_iff_le, territoriosControlados_eq]

/-- C13: `verificarMissao` on the mission "Controlar pelo menos 4 territórios"
is true exactly when the number of territories whose owner equals `P` is at
least 4.  The comparison of owners is case-sensitive: four territories of
"azul" do not count for "Azul". -/
theorem C13_min_four_territories (mapa : List Territorio) (P : String) :
    (verificarMissao "Controlar pelo menos 4 territórios" P mapa = true ↔
      4 ≤ (mapa.filter (fun t => t.cor = P)).length) ∧
    verificarMissao "Controlar pelo menos 4 territórios" "Azul"
      [⟨"X", "azul", 1⟩, ⟨"Y", "azul", 1⟩, ⟨"Z", "azul", 1⟩, ⟨"W", "azul", 1⟩] = false := by
  have h1 : ¬ ("Controlar pelo menos 4 territórios" =
      "Conquistar 3 territórios consecutivos") := by decide
  have h2 : ¬ ("Controlar pelo menos 4 territórios" =
      "Eliminar todas as tropas vermelhas do mapa") := by decide
  refine ⟨?_, by decide⟩
  simp only [verificarMissao, h1, h2, if_false, if_true, decide_eq_true_eq,
    ge_iff_le, territoriosControlados_eq]

/-- C14: on a mission text that is none of the six texts of the catalog,
`verificarMissao` is false for every map and every player color. -/
theorem C14_unrecognized_mission_false (missao P : String) (mapa : List Territorio)
    (hm : missao ∉ missoesPredefinidas) :
    verificarMissao missao P mapa = false := by
  simp only [missoesPredefinidas, missaoConsecutivos, missaoEliminarVermelho,
    missaoQuatroTerritorios, missaoTropas, missaoTresCores, missaoRegiao, List.mem_cons,
    List.mem_singleton, List.not_mem_nil, or_false, not_or] at hm
  obtain ⟨h1, h2, h3, h4, h5, h6⟩ := hm
  simp only [verificarMissao, h1, h2, h3, h4, h5, h6, if_false]

/-- C14 on the scenario map: the text "Dominar o mundo" is not in the catalog
and evaluates to false for Azul. -/
theorem C14_unrecognized_mission_false_witness :
    verificarMissao "Dominar o mundo" "Azul" cenario = false :=
  C14_unrecognized_mission_false "Dominar o mundo" "Azul" cenario (by decide)

/-! ## Battle loop: how it ends -/

/-- What one pass through the loop body guarantees about the way it ends. -/
theorem iteracao_fim (missao P : String) (mapa : List Territorio) (ent : Entrada)
    (it : Iteracao) (h : iteracao missao P mapa ent = some it) :
    (it.passo = Passo.vitoria → verificarMissao missao P it.mapa = true) ∧
    (it.passo = Passo.encerrar →
      verificarMissao missao P it.mapa = false ∧
      ∃ pre dA dD d o, it.eventos = pre ++ [Evento.batalha dA dD d, Evento.perguntaContinuar o] ∧
        (o = 'n' ∨ o = 'N')) ∧
    (it.passo = Passo.repetir → it.entrada.escolhas.length < ent.escolhas.length) := by
  unfold iteracao at h
  split at h
  · rename_i hv
    cases h
    refine ⟨fun _ => hv, ?_, ?_⟩ <;> intro hp <;> simp at hp
  · rename_i hv
    split at h
    · cases h
    · rename_i c1 es1 he
      simp only at h
      split at h
      · cases h
        refine ⟨?_, ?_, fun _ => ?_⟩
        · intro hp; simp at hp
        · intro hp; simp at hp
        · simp [he]; try omega
      · split at h
        · cases h
        · rename_i c2 es2
          split at h
          · cases h
            refine ⟨?_, ?_, fun _ => ?_⟩
            · intro hp; simp at hp
            · intro hp; simp at hp
            · simp [he]; try omega
          · split at h
            · cases h
              refine ⟨?_, ?_, fun _ => ?_⟩
              · intro hp; simp at hp
              · intro hp; simp at hp
              · simp [he]; try omega
            · split at h
              · rename_i r1 r2 rs hr
                split at h
                · rename_i hv2
                  cases h
                  refine ⟨fun _ => hv2, ?_, ?_⟩ <;> intro hp <;> simp at hp
                · rename_i hv2
                  split at h
                  · cases h
                  · rename_i opcao os ho
                    cases h
                    refine ⟨?_, ?_, ?_⟩
                    · intro hp
                      by_cases hn : opcao = 'n' ∨ opcao = 'N'
                      · simp [hn] at hp
                      · simp [hn] at hp
                    · intro hp
                      by_cases hn : opcao = 'n' ∨ opcao = 'N'
                      · refine ⟨by simpa using hv2, ?_⟩
                        exact ⟨[Evento.exibirMapa, Evento.selecao c1 (selecionarTerritorio (↑mapa.length) c1),
                          Evento.selecao c2 (selecionarTerritorio (↑mapa.length) c2)], _, _, _, opcao, rfl, hn⟩
                      · simp [hn] at hp
                    · intro _
                      · simp [he]; try omega
              · cases h

/-- Unfolding of one turn of the loop. -/
theorem laco_succ (missao P : String) (passos : Nat) (mapa : List Territorio) (ent : Entrada)
    (eventos : List Evento) :
    laco missao P (passos + 1) mapa ent eventos =
      match iteracao missao P mapa ent with
      | none => none
      | some it =>
        match it.passo with
        | Passo.vitoria => some ⟨Termino.Victory, it.mapa, it.entrada, eventos ++ it.eventos⟩
        | Passo.encerrar =>
          some ⟨Termino.UserStopped, it.mapa, it.entrada, eventos ++ it.eventos⟩
        | Passo.repetir => laco missao P passos it.mapa it.entrada (eventos ++ it.eventos) := rfl

/-- What a finished run of the loop guarantees, whatever the number of
iterations allowed. -/
theorem laco_fim (missao P : String) :
    ∀ (passos : Nat) (mapa : List Territorio) (ent : Entrada) (eventos : List Evento)
      (fim : Fim), laco missao P passos mapa ent eventos = some fim →
      (fim.termino = Termino.Victory → verificarMissao missao P fim.mapa = true) ∧
      (fim.termino = Termino.UserStopped →
        verificarMissao missao P fim.mapa = false ∧
        ∃ pre dA dD d o,
          fim.eventos = pre ++ [Evento.batalha dA dD d, Evento.perguntaContinuar o] ∧
          (o = 'n' ∨ o = 'N')) := by
  intro passos
  induction passos with
  | zero =>
    intro mapa ent eventos fim h
    simp [laco] at h
  | succ k ih =>
    intro mapa ent eventos fim h
    rw [laco_succ] at h
    cases hit : iteracao missao P mapa ent with
    | none => rw [hit] at h; cases h
    | some it =>
      rw [hit] at h
      obtain ⟨hvit, henc, _⟩ := iteracao_fim missao P mapa ent it hit
      cases hp : it.passo with
      | vitoria =>
        simp only [hp] at h
        cases h
        refine ⟨fun _ => hvit hp, ?_⟩
        intro ht; cases ht
      | encerrar =>
        simp only [hp] at h
        cases h
        refine ⟨?_, fun _ => ?_⟩
        · intro ht; cases ht
        · obtain ⟨hf, pre, dA, dD, d, o, hev, ho⟩ := henc hp
          refine ⟨hf, eventos ++ pre, dA, dD, d, o, ?_, ho⟩
          show eventos ++ it.eventos = _
          rw [hev, List.append_assoc]
      | repetir =>
        simp only [hp] at h
        exact ih it.mapa it.entrada (eventos ++ it.eventos) fim h

/-- The number of iterations `gerenciarBatalhas` allows is never the reason
for a run to stop: allowing more gives the same run. -/
theorem laco_passos_suficientes (missao P : String) :
    ∀ (passos : Nat) (mapa : List Territorio) (ent : Entrada) (eventos : List Evento),
      ent.escolhas.length + 1 ≤ passos →
      laco missao P passos mapa ent eventos =
        laco missao P (ent.escolhas.length + 1) mapa ent eventos := by
  intro passos
  induction passos using Nat.strong_induction_on with
  | _ n ih =>
    intro mapa ent eventos hn
    cases n with
    | zero => omega
    | succ k =>
      rw [laco_succ, laco_succ]
      cases hit : iteracao missao P mapa ent with
      | none => rfl
      | some it =>
        obtain ⟨_, _, hrep⟩ := iteracao_fim missao P mapa ent it hit
        cases hp : it.passo with
        | vitoria => simp only [hp]
        | encerrar => simp only [hp]
        | repetir =>
          have hlt := hrep hp
          simp only [hp]
          rw [ih k (by omega) it.mapa it.entrada _ (by omega),
            ih ent.escolhas.length (by omega) it.mapa it.entrada _ (by omega)]

/-- C15: on a map on which the player's mission already evaluates to true, an
iteration of the battle loop ends in victory at its first check: the map and
the whole input (selections, `rand()` values, answers) are left as they were,
so no selection, validation or attack takes place, and `gerenciarBatalhas`
terminates with Victory. -/
theorem C15_victory_at_top_of_iteration (missao P : String) (mapa : List Territorio)
    (ent : Entrada) (passos : Nat) (eventos : List Evento)
    (hv : verificarMissao missao P mapa = true) :
    iteracao missao P mapa ent =
      some ⟨Passo.vitoria, mapa, ent, [Evento.exibirMapa, Evento.missaoCumprida]⟩ ∧
    laco missao P (passos + 1) mapa ent eventos =
      some ⟨Termino.Victory, mapa, ent,
        eventos ++ [Evento.exibirMapa, Evento.missaoCumprida]⟩ ∧
    gerenciarBatalhas missao P mapa ent =
      some ⟨Termino.Victory, mapa, ent, [Evento.exibirMapa, Evento.missaoCumprida]⟩ := by
  have hit : iteracao missao P mapa ent =
      some ⟨Passo.vitoria, mapa, ent, [Evento.exibirMapa, Evento.missaoCumprida]⟩ := by
    simp only [iteracao, hv, if_true]
  refine ⟨hit, ?_, ?_⟩
  · rw [laco_succ, hit]
  · unfold gerenciarBatalhas
    rw [laco_succ, hit]
    rfl

/-- C15 on a map without red territories and the mission "Eliminar todas as
tropas vermelhas do mapa": the loop ends in Victory with the choices 1 and 2
still unread. -/
theorem C15_victory_at_top_of_iteration_witness :
    gerenciarBatalhas missaoEliminarVermelho "Azul"
        [⟨"X", "Azul", 3⟩, ⟨"Y", "Verde", 2⟩] ⟨[1, 2], [5, 0], ['n']⟩ =
      some ⟨Termino.Victory, [⟨"X", "Azul", 3⟩, ⟨"Y", "Verde", 2⟩], ⟨[1, 2], [5, 0], ['n']⟩,
        [Evento.exibirMapa, Evento.missaoCumprida]⟩ :=
  (C15_victory_at_top_of_iteration missaoEliminarVermelho "Azul"
    [⟨"X", "Azul", 3⟩, ⟨"Y", "Verde", 2⟩] ⟨[1, 2], [5, 0], ['n']⟩ 0 [] (by decide)).2.2

/-- C16: a run of the battle loop that terminates does so soundly.  It ends
with Victory only if the mission is true on the final map.  It ends with
UserStopped only if the mission is false on the final map and the last two
events are a battle and the continue prompt answered `n` or `N`.  And when an
accepted attack leaves a map on which the mission is true, the loop ends with
Victory in that iteration, no answer to the continue prompt being read. -/
theorem C16_terminal_outcome_sound (missao P : String) (passos : Nat)
    (mapa : List Territorio) (ent : Entrada) (eventos : List Evento) :
    (∀ fim, laco missao P passos mapa ent eventos = some fim →
      (fim.termino = Termino.Victory → verificarMissao missao P fim.mapa = true) ∧
      (fim.termino = Termino.UserStopped →
        verificarMissao missao P fim.mapa = false ∧
        ∃ pre dA dD d o,
          fim.eventos = pre ++ [Evento.batalha dA dD d, Evento.perguntaContinuar o] ∧
          (o = 'n' ∨ o = 'N'))) ∧
    (∀ fim, gerenciarBatalhas missao P mapa ent = some fim →
      (fim.termino = Termino.Victory → verificarMissao missao P fim.mapa = true) ∧
      (fim.termino = Termino.UserStopped →
        verificarMissao missao P fim.mapa = false ∧
        ∃ pre dA dD d o,
          fim.eventos = pre ++ [Evento.batalha dA dD d, Evento.perguntaContinuar o] ∧
          (o = 'n' ∨ o = 'N'))) ∧
    (∀ (c1 c2 : Int) (es : List Int) (r1 r2 : Nat) (rs : List Nat),
      verificarMissao missao P mapa = false →
      ent.escolhas = c1 :: c2 :: es → 1 ≤ c1 → c1 ≤ (mapa.length : Int) →
      1 ≤ c2 → c2 ≤ (mapa.length : Int) →
      validarAtaque mapa (c1 - 1).toNat (c2 - 1).toNat = Except.ok () →
      ent.rands = r1 :: r2 :: rs →
      verificarMissao missao P (atacar mapa (c1 - 1).toNat (c2 - 1).toNat r1 r2).1 = true →
      laco missao P (passos + 1) mapa ent eventos =
        some ⟨Termino.Victory, (atacar mapa (c1 - 1).toNat (c2 - 1).toNat r1 r2).1,
          ⟨es, rs, ent.opcoes⟩,
          eventos ++ [Evento.exibirMapa, Evento.selecao c1 (c1 - 1), Evento.selecao c2 (c2 - 1),
            Evento.batalha (rolarDado r1) (rolarDado r2)
              (atacar mapa (c1 - 1).toNat (c2 - 1).toNat r1 r2).2,
            Evento.missaoCumprida]⟩) := by
  refine ⟨fun fim h => laco_fim missao P passos mapa ent eventos fim h,
    fun fim h => laco_fim missao P _ mapa ent [] fim h, ?_⟩
  intro c1 c2 es r1 r2 rs hm he h1 h1n h2 h2n hva hr hv2
  have hs1 : selecionarTerritorio (mapa.length : Int) c1 = c1 - 1 := by
    have : ¬ (c1 < 1 ∨ (mapa.length : Int) < c1) := by omega
    simp [selecionarTerritorio, this]
  have hs2 : selecionarTerritorio (mapa.length : Int) c2 = c2 - 1 := by
    have : ¬ (c2 < 1 ∨ (mapa.length : Int) < c2) := by omega
    simp [selecionarTerritorio, this]
  have hs1ne : ¬ (c1 - 1 = -1) := by omega
  have hs2ne : ¬ (c2 - 1 = -1) := by omega
  have hit : iteracao missao P mapa ent =
      some ⟨Passo.vitoria, (atacar mapa (c1 - 1).toNat (c2 - 1).toNat r1 r2).1,
        ⟨es, rs, ent.opcoes⟩,
        [Evento.exibirMapa, Evento.selecao c1 (c1 - 1), Evento.selecao c2 (c2 - 1),
          Evento.batalha (rolarDado r1) (rolarDado r2)
            (atacar mapa (c1 - 1).toNat (c2 - 1).toNat r1 r2).2,
          Evento.missaoCumprida]⟩ := by
    simp only [iteracao, hm, he, hs1, hs2, hs1ne, hs2ne, hva, hr, hv2, if_false, if_true,
      Bool.false_eq_true]
    rfl
  rw [laco_succ, hit]

/-- C16 on the scenario map.  With the mission "Controlar pelo menos 4
territórios" for Azul, A attacks B, the rolls tie and the answer is `n`: the
run ends with UserStopped, the mission false on the final map.  With the
mission "Eliminar todas as tropas vermelhas do mapa", A conquers B with rolls
6 against 1 and the run ends with Victory, the answer `n` unread. -/
theorem C16_terminal_outcome_sound_witness :
    (∃ fim, gerenciarBatalhas missaoQuatroTerritorios "Azul" cenario
        ⟨[1, 2], [0, 0], ['n']⟩ = some fim ∧
      fim.termino = Termino.UserStopped ∧
      verificarMissao missaoQuatroTerritorios "Azul" fim.mapa = false) ∧
    laco missaoEliminarVermelho "Azul" 1 cenario ⟨[1, 2], [5, 0], ['n']⟩ [] =
      some ⟨Termino.Victory, (atacar cenario 0 1 5 0).1, ⟨[], [], ['n']⟩,
        [Evento.exibirMapa, Evento.selecao 1 0, Evento.selecao 2 1,
          Evento.batalha 6 1 (atacar cenario 0 1 5 0).2, Evento.missaoCumprida]⟩ :=
  ⟨⟨⟨Termino.UserStopped, (atacar cenario 0 1 0 0).1, ⟨[], [], []⟩,
      [Evento.exibirMapa, Evento.selecao 1 0, Evento.selecao 2 1,
        Evento.batalha 1 1 (atacar cenario 0 1 0 0).2, Evento.perguntaContinuar 'n']⟩,
      by decide, rfl,
      (((C16_terminal_outcome_sound missaoQuatroTerritorios "Azul" 0 cenario
        ⟨[1, 2], [0, 0], ['n']⟩ []).2.1 _ (by decide)).2 rfl).1⟩,
   (C16_terminal_outcome_sound missaoEliminarVermelho "Azul" 0 cenario
      ⟨[1, 2], [5, 0], ['n']⟩ []).2.2 1 2 [] 5 0 [] (by decide) rfl (by decide) (by decide)
      (by decide) (by decide) rfl rfl (by decide)⟩

/-! ## Selection, creation, assignment and dice -/

/-- C17: for every size `n` and every integer `c` read, `selecionarTerritorio`
returns `c - 1` when `1 ≤ c ≤ n` and the marker `-1` otherwise; so a result
that is not negative is an index of `[0, n)`. -/
theorem C17_selecionarTerritorio_range (n c : Int) :
    (1 ≤ c ∧ c ≤ n → selecionarTerritorio n c = c - 1) ∧
    (¬ (1 ≤ c ∧ c ≤ n) → selecionarTerritorio n c = -1) ∧
    (0 ≤ selecionarTerritorio n c → selecionarTerritorio n c < n) := by
  unfold selecionarTerritorio
  refine ⟨?_, ?_, ?_⟩
  · intro h
    rw [if_neg (by omega)]
  · intro h
    rw [if_pos (by omega)]
  · intro h
    split at h
    · omega
    · rename_i hc
      rw [if_neg hc]
      omega

/-- C18: the creation of the map fails with InvalidSize and status 1 for every
count `≤ 0`, whether or not memory is available; for every count `> 0`, the
allocation succeeding, it yields a map of exactly that many territories, each
with empty name, empty owner and 0 troops. -/
theorem C18_registry_creation (quantidade : Int) :
    (quantidade ≤ 0 → ∀ callocOk,
      criarMapa quantidade callocOk = Except.error (ErroCriacao.InvalidSize, 1)) ∧
    (0 < quantidade → ∃ mapa, criarMapa quantidade true = Except.ok mapa ∧
      (mapa.length : Int) = quantidade ∧
      (∀ t ∈ mapa, t = ⟨"", "", 0⟩) ∧
      ∀ i, i < mapa.length → ler mapa i = ⟨"", "", 0⟩) := by
  constructor
  · intro h ok
    simp [criarMapa, h]
  · intro h
    refine ⟨alocarTerritorios quantidade.toNat, ?_, ?_, ?_, ?_⟩
    · have : ¬ quantidade ≤ 0 := by omega
      simp [criarMapa, this]
    · simp [alocarTerritorios]
      omega
    · intro t ht
      simp only [alocarTerritorios] at ht
      exact List.eq_of_mem_replicate ht
    · intro i hi
      have hm : ler (alocarTerritorios quantidade.toNat) i ∈
          alocarTerritorios quantidade.toNat := ler_mem _ i hi
      simp only [alocarTerritorios] at hm
      exact List.eq_of_mem_replicate hm

/-- C18 at the counts 0, -3 and 2: the first two are rejected as InvalidSize
with status 1, the third gives two zero-filled territories. -/
theorem C18_registry_creation_witness :
    criarMapa 0 true = Except.error (ErroCriacao.InvalidSize, 1) ∧
    criarMapa (-3) true = Except.error (ErroCriacao.InvalidSize, 1) ∧
    ∃ mapa, criarMapa 2 true = Except.ok mapa ∧ (mapa.length : Int) = 2 ∧
      (∀ t ∈ mapa, t = ⟨"", "", 0⟩) ∧ ∀ i, i < mapa.length → ler mapa i = ⟨"", "", 0⟩ :=
  ⟨(C18_registry_creation 0).1 (by decide) true,
   (C18_registry_creation (-3)).1 (by decide) true,
   (C18_registry_creation 2).2 (by decide)⟩

/-- The branch of `verificarMissao` each text of the catalog selects. -/
theorem verificarMissao_catalogo (P : String) (mapa : List Territorio) :
    verificarMissao missaoConsecutivos P mapa = decide (maxConsecutivos P mapa ≥ 3) ∧
    verificarMissao missaoEliminarVermelho P mapa = semVermelhos mapa ∧
    verificarMissao missaoQuatroTerritorios P mapa =
      decide (territoriosControlados P mapa ≥ 4) ∧
    verificarMissao missaoTropas P mapa = decide (totalTropas P mapa > 2000) ∧
    verificarMissao missaoTresCores P mapa = decide (territoriosControlados P mapa ≥ 3) ∧
    verificarMissao missaoRegiao P mapa =
      decide (territoriosControlados P mapa ≥ mapa.length / 2) := by
  have a21 : ¬ ("Eliminar todas as tropas vermelhas do mapa" =
      "Conquistar 3 territórios consecutivos") := by decide
  have a31 : ¬ ("Controlar pelo menos 4 territórios" =
      "Conquistar 3 territórios consecutivos") := by decide
  have a32 : ¬ ("Controlar pelo menos 4 territórios" =
      "Eliminar todas as tropas vermelhas do mapa") := by decide
  have a41 : ¬ ("Ter mais de 2000 tropas no total" =
      "Conquistar 3 territórios consecutivos") := by decide
  have a42 : ¬ ("Ter mais de 2000 tropas no total" =
      "Eliminar todas as tropas vermelhas do mapa") := by decide
  have a43 : ¬ ("Ter mais de 2000 tropas no total" =
      "Controlar pelo menos 4 territórios") := by decide
  have a51 : ¬ ("Conquistar territórios de 3 cores diferentes" =
      "Conquistar 3 territórios consecutivos") := by decide
  have a52 : ¬ ("Conquistar territórios de 3 cores diferentes" =
      "Eliminar todas as tropas vermelhas do mapa") := by decide
  have a53 : ¬ ("Conquistar territórios de 3 cores diferentes" =
      "Controlar pelo menos 4 territórios") := by decide
  have a54 : ¬ ("Conquistar territórios de 3 cores diferentes" =
      "Ter mais de 2000 tropas no total") := by decide
  have a61 : ¬ ("Controlar todos os territórios de uma região" =
      "Conquistar 3 territórios consecutivos") := by decide
  have a62 : ¬ ("Controlar todos os territórios de uma região" =
      "Eliminar todas as tropas vermelhas do mapa") := by decide
  have a63 : ¬ ("Controlar todos os territórios de uma região" =
      "Controlar pelo menos 4 territórios") := by decide
  have a64 : ¬ ("Controlar todos os territórios de uma região" =
      "Ter mais de 2000 tropas no total") := by decide
  have a65 : ¬ ("Controlar todos os territórios de uma região" =
      "Conquistar territórios de 3 cores diferentes") := by decide
  have b1 : missaoConsecutivos = "Conquistar 3 territórios consecutivos" := rfl
  have b2 : missaoEliminarVermelho = "Eliminar todas as tropas vermelhas do mapa" := rfl
  have b3 : missaoQuatroTerritorios = "Controlar pelo menos 4 territórios" := rfl
  have b4 : missaoTropas = "Ter mais de 2000 tropas no total" := rfl
  have b5 : missaoTresCores = "Conquistar territórios de 3 cores diferentes" := rfl
  have b6 : missaoRegiao = "Controlar todos os territórios de uma região" := rfl
  refine ⟨?_, ?_, ?_, ?_, ?_, ?_⟩
  · simp only [verificarMissao, b1, if_true]
  · simp only [verificarMissao, a21, b2, if_false, if_true]
  · simp only [verificarMissao, a31, a32, b3, if_false, if_true]
  · simp only [verificarMissao, a41, a42, a43, b4, if_false, if_true]
  · simp only [verificarMissao, a51, a52, a53, a54, b5, if_false, if_true]
  · simp only [verificarMissao, a61, a62, a63, a64, a65, b6, if_false, if_true]

/-- C19: for every value `r` of `rand()`, `atribuirMissao` on the catalog of 6
missions delivers the catalog text at index `r % 6`.  The mission assigned is
therefore one of the six, each of the six is assigned for some `r`, the text
fits the 100 bytes of the destination, and `verificarMissao` evaluates it in
the branch of that same index, never in the final `return 0`. -/
theorem C19_atribuirMissao_catalog (r : Nat) :
    missoesPredefinidas[r % 6]? = some (atribuirMissao missoesPredefinidas TOTAL_MISSOES r) ∧
    atribuirMissao missoesPredefinidas TOTAL_MISSOES r ∈ missoesPredefinidas ∧
    (∀ m ∈ missoesPredefinidas, ∃ k, atribuirMissao missoesPredefinidas TOTAL_MISSOES k = m) ∧
    (atribuirMissao missoesPredefinidas TOTAL_MISSOES r).utf8ByteSize + 1 ≤ 100 ∧
    (∀ (P : String) (mapa : List Territorio),
      verificarMissao (atribuirMissao missoesPredefinidas TOTAL_MISSOES r) P mapa =
        match r % 6 with
        | 0 => decide (maxConsecutivos P mapa ≥ 3)
        | 1 => semVermelhos mapa
        | 2 => decide (territoriosControlados P mapa ≥ 4)
        | 3 => decide (totalTropas P mapa > 2000)
        | 4 => decide (territoriosControlados P mapa ≥ 3)
        | _ => decide (territoriosControlados P mapa ≥ mapa.length / 2)) := by
  have hsur : ∀ m ∈ missoesPredefinidas,
      ∃ k, atribuirMissao missoesPredefinidas TOTAL_MISSOES k = m := by
    intro m hm
    simp only [missoesPredefinidas, List.mem_cons, List.mem_singleton, List.not_mem_nil,
      or_false] at hm
    rcases hm with h | h | h | h | h | h
    · exact ⟨0, by rw [h]; rfl⟩
    · exact ⟨1, by rw [h]; rfl⟩
    · exact ⟨2, by rw [h]; rfl⟩
    · exact ⟨3, by rw [h]; rfl⟩
    · exact ⟨4, by rw [h]; rfl⟩
    · exact ⟨5, by rw [h]; rfl⟩
  have hk : r % 6 < 6 := Nat.mod_lt r (by norm_num)
  have hat : atribuirMissao missoesPredefinidas TOTAL_MISSOES r =
      missoesPredefinidas.getD (r % 6) "" := rfl
  rw [hat]
  generalize r % 6 = k at hk
  have hcases : k = 0 ∨ k = 1 ∨ k = 2 ∨ k = 3 ∨ k = 4 ∨ k = 5 := by omega
  rcases hcases with h | h | h | h | h | h <;> subst h
  · exact ⟨rfl, by decide, hsur, by decide,
      fun P mapa => (verificarMissao_catalogo P mapa).1⟩
  · exact ⟨rfl, by decide, hsur, by decide,
      fun P mapa => (verificarMissao_catalogo P mapa).2.1⟩
  · exact ⟨rfl, by decide, hsur, by decide,
      fun P mapa => (verificarMissao_catalogo P mapa).2.2.1⟩
  · exact ⟨rfl, by decide, hsur, by decide,
      fun P mapa => (verificarMissao_catalogo P mapa).2.2.2.1⟩
  · exact ⟨rfl, by decide, hsur, by decide,
      fun P mapa => (verificarMissao_catalogo P mapa).2.2.2.2.1⟩
  · exact ⟨rfl, by decide, hsur, by decide,
      fun P mapa => (verificarMissao_catalogo P mapa).2.2.2.2.2⟩

/-- C20: for every value `r` of `rand()` the die `r % 6 + 1` lies in `[1, 6]`,
and every value of `1..6` is the die of some `r`.  Both dice of `atacar` are
made this way: the attack is settled by the two die values alone. -/
theorem C20_dice_range (r : Nat) :
    1 ≤ rolarDado r ∧ rolarDado r ≤ 6 ∧
    (∀ d, 1 ≤ d → d ≤ 6 → ∃ k, rolarDado k = d) ∧
    (∀ (mapa : List Territorio) (atacante defensor r2 : Nat),
      atacar mapa atacante defensor r r2 =
        atacar mapa atacante defensor (rolarDado r - 1) (rolarDado r2 - 1)) := by
  have hid : ∀ x, rolarDado (rolarDado x - 1) = rolarDado x := by
    intro x
    unfold rolarDado
    omega
  refine ⟨by unfold rolarDado; omega, by unfold rolarDado; omega, ?_, ?_⟩
  · intro d h1 h6
    refine ⟨d - 1, ?_⟩
    unfold rolarDado
    omega
  · intro mapa atacante defensor r2
    simp only [atacar, hid]

/-! ## Purity of the mission check and frame of the attack -/

/-- In an iteration that hands over to the next one, the mission is false on
the map it leaves. -/
theorem iteracao_repetir_missao (missao P : String) (mapa : List Territorio) (ent : Entrada)
    (it : Iteracao) (h : iteracao missao P mapa ent = some it)
    (hp : it.passo = Passo.repetir) : verificarMissao missao P it.mapa = false := by
  unfold iteracao at h
  split at h
  · cases h; simp at hp
  · rename_i hv
    have hv0 : verificarMissao missao P mapa = false := by simpa using hv
    split at h
    · cases h
    · simp only at h
      split at h
      · cases h; exact hv0
      · split at h
        · cases h
        · split at h
          · cases h; exact hv0
          · split at h
            · cases h; exact hv0
            · split at h
              · split at h
                · cases h; simp at hp
                · rename_i hv2
                  split at h
                  · cases h
                  · cases h
                    simpa using hv2
              · cases h

theorem map_ler_range (l : List Territorio) : (List.range l.length).map (ler l) = l := by
  apply List.ext_getElem
  · simp
  · intro n h1 h2
    simp [ler, List.getD_eq_getElem?_getD, h2]

/-- The loop of mission 1 run on the state leaves the memory as it was and in
the two counters what the loop of `maxConsecutivos` computes. -/
theorem foldl_corpoConsecutivos :
    ∀ (is : List Nat) (e : Estado),
      is.foldl corpoConsecutivos e =
        { mem := e.mem,
          loc := { e.loc with
            consecutivos := ((is.map (ler e.mem.mapa)).foldl
              (passoConsecutivos e.mem.corJogador)
              (e.loc.consecutivos, e.loc.maxConsecutivos)).1,
            maxConsecutivos := ((is.map (ler e.mem.mapa)).foldl
              (passoConsecutivos e.mem.corJogador)
              (e.loc.consecutivos, e.loc.maxConsecutivos)).2 } } := by
  intro is
  induction is with
  | nil => intro e; rfl
  | cons i resto ih =>
    intro e
    rw [List.foldl_cons, ih (corpoConsecutivos e i), List.map_cons, List.foldl_cons]
    by_cases ho : (ler e.mem.mapa i).cor = e.mem.corJogador
    · by_cases hgt : e.loc.consecutivos + 1 > e.loc.maxConsecutivos
      · simp [corpoConsecutivos, passoConsecutivos, ho, hgt]
      · simp [corpoConsecutivos, passoConsecutivos, ho, hgt]
    · simp [corpoConsecutivos, passoConsecutivos, ho]

/-- The counting loop run on the state leaves the memory as it was and in
`territoriosControlados` what the counting loop computes. -/
theorem foldl_corpoContagem :
    ∀ (is : List Nat) (e : Estado),
      is.foldl corpoContagem e =
        { mem := e.mem,
          loc := { e.loc with
            territoriosControlados := (is.map (ler e.mem.mapa)).foldl
              (fun n t => if t.cor = e.mem.corJogador then n + 1 else n)
              e.loc.territoriosControlados } } := by
  intro is
  induction is with
  | nil => intro e; rfl
  | cons i resto ih =>
    intro e
    rw [List.foldl_cons, ih (corpoContagem e i), List.map_cons, List.foldl_cons]
    by_cases ho : (ler e.mem.mapa i).cor = e.mem.corJogador
    · simp [corpoContagem, ho]
    · simp [corpoContagem, ho]

/-- The loop of mission 4 run on the state leaves the memory as it was and in
`totalTropas` what the loop of `totalTropas` computes. -/
theorem foldl_corpoTropas :
    ∀ (is : List Nat) (e : Estado),
      is.foldl corpoTropas e =
        { mem := e.mem,
          loc := { e.loc with
            totalTropas := (is.map (ler e.mem.mapa)).foldl
              (fun s t => if t.cor = e.mem.corJogador then wrap32 (s + t.tropas) else s)
              e.loc.totalTropas } } := by
  intro is
  induction is with
  | nil => intro e; rfl
  | cons i resto ih =>
    intro e
    rw [List.foldl_cons, ih (corpoTropas e i), List.map_cons, List.foldl_cons]
    by_cases ho : (ler e.mem.mapa i).cor = e.mem.corJogador
    · simp [corpoTropas, ho]
    · simp [corpoTropas, ho]

theorem procurarVermelho_eq (e : Estado) :
    ∀ is : List Nat, procurarVermelho e is = semVermelhos (is.map (ler e.mem.mapa)) := by
  intro is
  induction is with
  | nil => rfl
  | cons i resto ih =>
    simp only [procurarVermelho, List.map_cons, semVermelhos, ih]

/-- The call run statement by statement leaves the memory as it was and
returns what `verificarMissao` returns on that memory, whatever the stack
slots of the locals held. -/
theorem chamarVerificarMissao_spec (e : Estado) :
    (chamarVerificarMissao e).2.mem = e.mem ∧
    (chamarVerificarMissao e).1 =
      verificarMissao e.mem.missaoJogador e.mem.corJogador e.mem.mapa := by
  unfold chamarVerificarMissao verificarMissao
  simp only [foldl_corpoConsecutivos, foldl_corpoContagem, foldl_corpoTropas,
    procurarVermelho_eq, map_ler_range, maxConsecutivos, territoriosControlados, totalTropas]
  split
  · exact ⟨rfl, rfl⟩
  · split
    · exact ⟨rfl, rfl⟩
    · split
      · exact ⟨rfl, rfl⟩
      · split
        · exact ⟨rfl, rfl⟩
        · split
          · exact ⟨rfl, rfl⟩
          · split
            · exact ⟨rfl, rfl⟩
            · exact ⟨rfl, rfl⟩

/-- C21: `verificarMissao` is a pure function of the mission text, the player
color and the map.  Run statement by statement on a state made of the memory
(the map and the two globals) and of the stack slots of its locals, a call
leaves the memory as it found it and returns a value that depends on the
memory alone, not on what the slots held; so a second call right after the
first, which finds the slots as the first left them, returns the same value
and again leaves the memory as it was. -/
theorem C21_verificarMissao_pure (e : Estado) :
    (chamarVerificarMissao e).2.mem = e.mem ∧
    (∀ loc : Locais,
      (chamarVerificarMissao ⟨e.mem, loc⟩).1 = (chamarVerificarMissao e).1) ∧
    (chamarVerificarMissao e).1 =
      verificarMissao e.mem.missaoJogador e.mem.corJogador e.mem.mapa ∧
    (chamarVerificarMissao (chamarVerificarMissao e).2).1 = (chamarVerificarMissao e).1 ∧
    (chamarVerificarMissao (chamarVerificarMissao e).2).2.mem = e.mem := by
  have h1 := chamarVerificarMissao_spec e
  have h2 := chamarVerificarMissao_spec (chamarVerificarMissao e).2
  refine ⟨h1.1, ?_, h1.2, ?_, ?_⟩
  · intro loc
    rw [(chamarVerificarMissao_spec ⟨e.mem, loc⟩).2, h1.2]
  · rw [h2.2, h1.1, h1.2]
  · rw [h2.1, h1.1]

/-- C21 on the scenario map with the mission of the 2000 troops for Azul and
the slots of the locals all holding 7: the call returns false and leaves the
map and the globals as they were, while the slot `totalTropas` now holds 11;
a second call on the state left returns false again. -/
theorem C21_verificarMissao_pure_witness :
    (chamarVerificarMissao ⟨⟨missaoTropas, "Azul", cenario⟩, ⟨7, 7, 7, 7⟩⟩).1 = false ∧
    (chamarVerificarMissao ⟨⟨missaoTropas, "Azul", cenario⟩, ⟨7, 7, 7, 7⟩⟩).2.mem =
      ⟨missaoTropas, "Azul", cenario⟩ ∧
    (chamarVerificarMissao ⟨⟨missaoTropas, "Azul", cenario⟩, ⟨7, 7, 7, 7⟩⟩).2.loc =
      ⟨7, 7, 7, 11⟩ ∧
    (chamarVerificarMissao
      (chamarVerificarMissao ⟨⟨missaoTropas, "Azul", cenario⟩, ⟨7, 7, 7, 7⟩⟩).2).1 = false :=
  ⟨by decide,
   (C21_verificarMissao_pure ⟨⟨missaoTropas, "Azul", cenario⟩, ⟨7, 7, 7, 7⟩⟩).1,
   by decide,
   ((C21_verificarMissao_pure ⟨⟨missaoTropas, "Azul", cenario⟩, ⟨7, 7, 7, 7⟩⟩).2.2.2.1).trans
     (by decide)⟩

theorem nome_setTropas (mapa : List Territorio) (p k : Nat) (v : Int) :
    (ler (setTropas mapa p v) k).nome = (ler mapa k).nome := by
  by_cases hk : p = k
  · subst hk
    by_cases hp : p < mapa.length
    · rw [ler_setTropas_same mapa p v hp]
    · simp [setTropas, List.set_eq_of_length_le (Nat.le_of_not_lt hp)]
  · rw [ler_setTropas_ne mapa p k v hk]

theorem cor_setTropas (mapa : List Territorio) (p k : Nat) (v : Int) :
    (ler (setTropas mapa p v) k).cor = (ler mapa k).cor := by
  by_cases hk : p = k
  · subst hk
    by_cases hp : p < mapa.length
    · rw [ler_setTropas_same mapa p v hp]
    · simp [setTropas, List.set_eq_of_length_le (Nat.le_of_not_lt hp)]
  · rw [ler_setTropas_ne mapa p k v hk]

theorem nome_setCor (mapa : List Territorio) (p k : Nat) (c : String) :
    (ler (setCor mapa p c) k).nome = (ler mapa k).nome := by
  by_cases hk : p = k
  · subst hk
    by_cases hp : p < mapa.length
    · rw [ler_setCor_same mapa p c hp]
    · simp [setCor, List.set_eq_of_length_le (Nat.le_of_not_lt hp)]
  · rw [ler_setCor_ne mapa p k c hk]

/-- C22: for distinct in-range attacker and defender and any two rolls,
`atacar` changes at most the attacker's troops and the defender's owner and
troops: the size of the map, the name of every territory, the attacker's owner
and every territory other than the two are as before. -/
theorem C22_atacar_frame (mapa : List Territorio) (atacante defensor r1 r2 : Nat)
    (hA : atacante < mapa.length) (hD : defensor < mapa.length)
    (hne : atacante ≠ defensor) :
    (atacar mapa atacante defensor r1 r2).1.length = mapa.length ∧
    (∀ k, (ler (atacar mapa atacante defensor r1 r2).1 k).nome = (ler mapa k).nome) ∧
    (ler (atacar mapa atacante defensor r1 r2).1 atacante).cor = (ler mapa atacante).cor ∧
    (∀ k, k ≠ atacante → k ≠ defensor →
      ler (atacar mapa atacante defensor r1 r2).1 k = ler mapa k) := by
  by_cases hwin : rolarDado r1 > rolarDado r2
  · rw [atacar_vitoria mapa atacante defensor r1 r2 hne hwin]
    refine ⟨?_, ?_, ?_, ?_⟩
    · rw [length_setTropas, length_setTropas, length_setCor]
    · intro k
      rw [nome_setTropas, nome_setTropas, nome_setCor]
    · rw [cor_setTropas, cor_setTropas, ler_setCor_ne _ defensor atacante _ (Ne.symm hne)]
    · intro k hkA hkD
      rw [ler_setTropas_ne _ atacante k _ (Ne.symm hkA),
        ler_setTropas_ne _ defensor k _ (Ne.symm hkD),
        ler_setCor_ne _ defensor k _ (Ne.symm hkD)]
  · rw [atacar_derrota mapa atacante defensor r1 r2 (Nat.not_lt.mp hwin)]
    by_cases hgt : (ler mapa atacante).tropas > 1
    · rw [if_pos hgt]
      refine ⟨?_, ?_, ?_, ?_⟩
      · rw [length_setTropas]
      · intro k
        rw [nome_setTropas]
      · rw [cor_setTropas]
      · intro k hkA _
        rw [ler_setTropas_ne _ atacante k _ (Ne.symm hkA)]
    · rw [if_neg hgt]
      exact ⟨rfl, fun _ => rfl, rfl, fun _ _ _ => rfl⟩

/-- C22 on the scenario map, A attacking B with rolls 6 against 1: the map
keeps its 3 territories, the names A and B, A's owner Azul, and C whole. -/
theorem C22_atacar_frame_witness :
    (atacar cenario 0 1 5 0).1.length = 3 ∧
    (ler (atacar cenario 0 1 5 0).1 0).nome = "A" ∧
    (ler (atacar cenario 0 1 5 0).1 1).nome = "B" ∧
    (ler (atacar cenario 0 1 5 0).1 0).cor = "Azul" ∧
    ler (atacar cenario 0 1 5 0).1 2 = ⟨"C", "Azul", 1⟩ :=
  ⟨(C22_atacar_frame cenario 0 1 5 0 (by decide) (by decide) (by decide)).1,
   (C22_atacar_frame cenario 0 1 5 0 (by decide) (by decide) (by decide)).2.1 0,
   (C22_atacar_frame cenario 0 1 5 0 (by decide) (by decide) (by decide)).2.1 1,
   (C22_atacar_frame cenario 0 1 5 0 (by decide) (by decide) (by decide)).2.2.1,
   (C22_atacar_frame cenario 0 1 5 0 (by decide) (by decide) (by decide)).2.2.2 2
     (by decide) (by decide)⟩

/-! ## Owners and troop sums across an attack -/

theorem somaTropas_cons (P : String) (t : Territorio) (l : List Territorio) :
    somaTropas P (t :: l) = (if t.cor = P then t.tropas else 0) + somaTropas P l := by
  by_cases h : t.cor = P
  · simp [somaTropas, List.filter_cons, h]
  · simp [somaTropas, List.filter_cons, h]

/-- Replacing the territory at an index of the map moves the troop sum of `P`
by the difference of the two contributions. -/
theorem somaTropas_set (P : String) :
    ∀ (l : List Territorio) (k : Nat) (t : Territorio), k < l.length →
      somaTropas P (l.set k t) + (if (ler l k).cor = P then (ler l k).tropas else 0) =
        somaTropas P l + (if t.cor = P then t.tropas else 0) := by
  intro l
  induction l with
  | nil => intro k t hk; simp at hk
  | cons x l ih =>
    intro k t hk
    cases k with
    | zero =>
      rw [List.set_cons_zero, ler_cons_zero, somaTropas_cons, somaTropas_cons]
      omega
    | succ k =>
      rw [List.set_cons_succ, ler_cons_succ, somaTropas_cons, somaTropas_cons]
      have h := ih k t (by simpa using hk)
      omega

theorem filter_cor_cons (c : String) (t : Territorio) (l : List Territorio) :
    ((t :: l).filter (fun t => t.cor = c)).length =
      (if t.cor = c then 1 else 0) + (l.filter (fun t => t.cor = c)).length := by
  by_cases h : t.cor = c
  · simp [List.filter_cons, h]; omega
  · simp [List.filter_cons, h]

/-- Replacing the territory at an index of the map moves the number of
territories of color `c` by the difference of the two contributions. -/
theorem filter_cor_set (c : String) :
    ∀ (l : List Territorio) (k : Nat) (t : Territorio), k < l.length →
      ((l.set k t).filter (fun t => t.cor = c)).length +
          (if (ler l k).cor = c then 1 else 0) =
        (l.filter (fun t => t.cor = c)).length + (if t.cor = c then 1 else 0) := by
  intro l
  induction l with
  | nil => intro k t hk; simp at hk
  | cons x l ih =>
    intro k t hk
    cases k with
    | zero =>
      rw [List.set_cons_zero, ler_cons_zero, filter_cor_cons, filter_cor_cons]
      omega
    | succ k =>
      rw [List.set_cons_succ, ler_cons_succ, filter_cor_cons, filter_cor_cons]
      have h := ih k t (by simpa using hk)
      omega

theorem somaTropas_nonneg (P : String) :
    ∀ l : List Territorio, (∀ t ∈ l, 0 ≤ t.tropas) → 0 ≤ somaTropas P l := by
  intro l
  induction l with
  | nil => intro _; simp [somaTropas]
  | cons x l ih =>
    intro h
    rw [somaTropas_cons]
    have hx : 0 ≤ x.tropas := h x (List.mem_cons_self x l)
    have hl := ih (fun t ht => h t (List.mem_cons_of_mem x ht))
    split <;> omega

/-- The loop of mission 4 delivers the exact troop sum of `P` whenever that
sum is an `int`. -/
theorem totalTropas_eq_somaTropas (P : String) (mapa : List Territorio)
    (hmin : INT_MIN ≤ somaTropas P mapa) (hmax : somaTropas P mapa ≤ INT_MAX) :
    totalTropas P mapa = somaTropas P mapa := by
  have hf := foldl_totalTropas P mapa 0 (by unfold INT_MIN INT_MAX; omega)
  unfold totalTropas
  unfold INT_MIN INT_MAX at hf
  unfold INT_MIN at hmin
  unfold INT_MAX at hmax
  omega

theorem somaTropas_setTropas (P : String) (mapa : List Territorio) (p : Nat) (v : Int)
    (hp : p < mapa.length) :
    somaTropas P (setTropas mapa p v) +
        (if (ler mapa p).cor = P then (ler mapa p).tropas else 0) =
      somaTropas P mapa + (if (ler mapa p).cor = P then v else 0) :=
  somaTropas_set P mapa p { ler mapa p with tropas := v } hp

theorem somaTropas_setCor (P : String) (mapa : List Territorio) (p : Nat) (c : String)
    (hp : p < mapa.length) :
    somaTropas P (setCor mapa p c) +
        (if (ler mapa p).cor = P then (ler mapa p).tropas else 0) =
      somaTropas P mapa + (if c = P then (ler mapa p).tropas else 0) :=
  somaTropas_set P mapa p { ler mapa p with cor := c } hp

/-- The troop sum of `P` after an accepted attack, in terms of the sum before:
a conquest takes the defender's former troops out of the sum of the
defender's former color, a defeat takes one troop out of the sum of the
attacker's color. -/
theorem somaTropas_atacar (P : String) (mapa : List Territorio)
    (atacante defensor r1 r2 : Nat)
    (hA : atacante < mapa.length) (hD : defensor < mapa.length)
    (hv : validarAtaque mapa atacante defensor = Except.ok ()) :
    somaTropas P (atacar mapa atacante defensor r1 r2).1 =
      if rolarDado r1 > rolarDado r2 then
        somaTropas P mapa - (if (ler mapa defensor).cor = P then (ler mapa defensor).tropas else 0)
      else
        somaTropas P mapa - (if (ler mapa atacante).cor = P then 1 else 0) := by
  obtain ⟨hne, _, h2⟩ := validarAtaque_ok mapa atacante defensor hv
  by_cases hwin : rolarDado r1 > rolarDado r2
  · rw [if_pos hwin, atacar_vitoria mapa atacante defensor r1 r2 hne hwin]
    have hD1 : defensor < (setCor mapa defensor (ler mapa atacante).cor).length := by
      rw [length_setCor]; exact hD
    have hA2 : atacante < (setTropas (setCor mapa defensor (ler mapa atacante).cor) defensor
        (Int.tdiv (ler mapa atacante).tropas 2)).length := by
      rw [length_setTropas, length_setCor]; exact hA
    have e1 := somaTropas_setCor P mapa defensor (ler mapa atacante).cor hD
    have e2 := somaTropas_setTropas P (setCor mapa defensor (ler mapa atacante).cor) defensor
      (Int.tdiv (ler mapa atacante).tropas 2) hD1
    have e3 := somaTropas_setTropas P
      (setTropas (setCor mapa defensor (ler mapa atacante).cor) defensor
        (Int.tdiv (ler mapa atacante).tropas 2)) atacante
      ((ler mapa atacante).tropas - Int.tdiv (ler mapa atacante).tropas 2) hA2
    rw [ler_setTropas_ne _ defensor atacante _ (Ne.symm hne),
      ler_setCor_ne _ defensor atacante _ (Ne.symm hne)] at e3
    rw [ler_setCor_same _ _ _ hD] at e2
    simp only [] at e2
    by_cases hcA : (ler mapa atacante).cor = P
    · by_cases hcD : (ler mapa defensor).cor = P
      · simp only [hcA, hcD, if_true] at e1 e2 e3 ⊢
        omega
      · simp only [hcA, hcD, if_true, if_false] at e1 e2 e3 ⊢
        omega
    · by_cases hcD : (ler mapa defensor).cor = P
      · simp only [hcA, hcD, if_true, if_false] at e1 e2 e3 ⊢
        omega
      · simp only [hcA, hcD, if_false] at e1 e2 e3 ⊢
        omega
  · rw [if_neg hwin, atacar_derrota mapa atacante defensor r1 r2 (Nat.not_lt.mp hwin)]
    have hgt : (ler mapa atacante).tropas > 1 := by omega
    rw [if_pos hgt]
    have e1 := somaTropas_setTropas P mapa atacante ((ler mapa atacante).tropas - 1) hA
    by_cases hcA : (ler mapa atacante).cor = P
    · simp only [hcA, if_true] at e1 ⊢
      omega
    · simp only [hcA, if_false] at e1 ⊢
      omega

theorem atacar_tropas_nao_negativas (mapa : List Territorio)
    (atacante defensor r1 r2 : Nat)
    (hnn : ∀ t ∈ mapa, 0 ≤ t.tropas) (hD : defensor < mapa.length)
    (hv : validarAtaque mapa atacante defensor = Except.ok ()) :
    ∀ t ∈ (atacar mapa atacante defensor r1 r2).1, 0 ≤ t.tropas := by
  obtain ⟨hne, _, h2⟩ := validarAtaque_ok mapa atacante defensor hv
  have hdiv : Int.tdiv (ler mapa atacante).tropas 2 = (ler mapa atacante).tropas / 2 :=
    Int.tdiv_eq_ediv (by omega) (by norm_num)
  intro t ht
  by_cases hwin : rolarDado r1 > rolarDado r2
  · rw [atacar_vitoria mapa atacante defensor r1 r2 hne hwin] at ht
    rcases tropas_of_mem_setTropas _ _ _ _ ht with ht | ht
    · rcases tropas_of_mem_setTropas _ _ _ _ ht with ht | ht
      · rcases tropas_of_mem_setCor _ _ _ _ ht with ht | ht
        · exact hnn t ht
        · rw [ht]
          exact hnn _ (ler_mem mapa defensor hD)
      · rw [ht, hdiv]; omega
    · rw [ht, hdiv]; omega
  · rw [atacar_derrota mapa atacante defensor r1 r2 (Nat.not_lt.mp hwin)] at ht
    by_cases hgt : (ler mapa atacante).tropas > 1
    · rw [if_pos hgt] at ht
      rcases tropas_of_mem_setTropas _ _ _ _ ht with ht | ht
      · exact hnn t ht
      · rw [ht]; omega
    · rw [if_neg hgt] at ht
      exact hnn t ht

/-- C23: the failing input.  On the map `estouro` the troops of Azul add up to
`2^31`, so the accumulation `totalTropas += mapa[i].tropas` of mission 4
leaves the range of `int`; with the overflow taken as two's-complement
wrap-around the total is `-2^31` and `verificarMissao` returns false although
Azul holds more than 2000 troops.  X (Azul) then attacks Z (Verde), the rolls
tie and X loses one troop: the sum falls to `2^31 - 1`, no longer overflows,
and `verificarMissao` returns true.  The mission has gone from false to true
across an attack that lowered the sum. -/
theorem C23_overflow_failing_input :
    (∀ t ∈ estouro, 0 ≤ t.tropas) ∧
    validarAtaque estouro 0 2 = Except.ok () ∧
    somaTropas "Azul" estouro = 2147483648 ∧
    INT_MAX < somaTropas "Azul" estouro ∧
    totalTropas "Azul" estouro = -2147483648 ∧
    verificarMissao "Ter mais de 2000 tropas no total" "Azul" estouro = false ∧
    somaTropas "Azul" (atacar estouro 0 2 0 0).1 = 2147483647 ∧
    verificarMissao "Ter mais de 2000 tropas no total" "Azul"
      (atacar estouro 0 2 0 0).1 = true := by
  refine ⟨by decide, rfl, by decide, by decide, by decide, by decide, by decide, by decide⟩

/-- Where the troop sum of `P` fits a 32-bit `int` the code does what is
expected of it: on a map whose troop counts are all non-negative, after an
attack that `validarAtaque` accepted, whatever the rolls, the sum of the
troops of the territories owned by `P` is at most what it was before; and
when the sum before fits an `int`, a mission "Ter mais de 2000 tropas no
total" that was false before the attack is still false after it. -/
theorem somaTropas_nao_cresce (mapa : List Territorio) (P : String)
    (atacante defensor r1 r2 : Nat)
    (hnn : ∀ t ∈ mapa, 0 ≤ t.tropas)
    (hA : atacante < mapa.length) (hD : defensor < mapa.length)
    (hv : validarAtaque mapa atacante defensor = Except.ok ()) :
    somaTropas P (atacar mapa atacante defensor r1 r2).1 ≤ somaTropas P mapa ∧
    (somaTropas P mapa ≤ INT_MAX →
      verificarMissao "Ter mais de 2000 tropas no total" P mapa = false →
      verificarMissao "Ter mais de 2000 tropas no total" P
        (atacar mapa atacante defensor r1 r2).1 = false) := by
  have hle : somaTropas P (atacar mapa atacante defensor r1 r2).1 ≤ somaTropas P mapa := by
    rw [somaTropas_atacar P mapa atacante defensor r1 r2 hA hD hv]
    have hd : 0 ≤ (ler mapa defensor).tropas := hnn _ (ler_mem mapa defensor hD)
    split <;> split <;> omega
  refine ⟨hle, ?_⟩
  intro hmax hfalse
  have h0 : 0 ≤ somaTropas P mapa := somaTropas_nonneg P mapa hnn
  have h0' : 0 ≤ somaTropas P (atacar mapa atacante defensor r1 r2).1 :=
    somaTropas_nonneg P _ (atacar_tropas_nao_negativas mapa atacante defensor r1 r2 hnn hD hv)
  have hcat := (verificarMissao_catalogo P mapa).2.2.2.1
  have hcat' := (verificarMissao_catalogo P (atacar mapa atacante defensor r1 r2).1).2.2.2.1
  change verificarMissao "Ter mais de 2000 tropas no total" P mapa = _ at hcat
  change verificarMissao "Ter mais de 2000 tropas no total" P _ = _ at hcat'
  have hmin : INT_MIN ≤ (0 : Int) := by decide
  rw [hcat, totalTropas_eq_somaTropas P mapa (le_trans hmin h0) hmax] at hfalse
  rw [hcat', totalTropas_eq_somaTropas P _ (le_trans hmin h0') (le_trans hle hmax)]
  simp only [gt_iff_lt, decide_eq_false_iff_not, not_lt] at hfalse ⊢
  omega

/-- On the scenario map for Vermelho: A conquers B with rolls 6 against 1, and
the troop sum of Vermelho does not grow (it falls from 5 to 0); the mission of
the 2000 troops, false before, is false after. -/
theorem somaTropas_nao_cresce_cenario :
    somaTropas "Vermelho" (atacar cenario 0 1 5 0).1 ≤ somaTropas "Vermelho" cenario ∧
    verificarMissao "Ter mais de 2000 tropas no total" "Vermelho"
      (atacar cenario 0 1 5 0).1 = false :=
  ⟨(somaTropas_nao_cresce cenario "Vermelho" 0 1 5 0 (by decide) (by decide)
      (by decide) rfl).1,
   (somaTropas_nao_cresce cenario "Vermelho" 0 1 5 0 (by decide) (by decide)
      (by decide) rfl).2 (by decide) (by decide)⟩

theorem filter_cor_setTropas (c : String) (mapa : List Territorio) (p : Nat) (v : Int)
    (hp : p < mapa.length) :
    ((setTropas mapa p v).filter (fun t => t.cor = c)).length =
      (mapa.filter (fun t => t.cor = c)).length := by
  have h := filter_cor_set c mapa p { ler mapa p with tropas := v } hp
  change ((setTropas mapa p v).filter (fun t => t.cor = c)).length +
    (if (ler mapa p).cor = c then 1 else 0) =
    (mapa.filter (fun t => t.cor = c)).length + (if (ler mapa p).cor = c then 1 else 0) at h
  omega

theorem filter_cor_setCor (c : String) (mapa : List Territorio) (p : Nat) (x : String)
    (hp : p < mapa.length) :
    ((setCor mapa p x).filter (fun t => t.cor = c)).length +
        (if (ler mapa p).cor = c then 1 else 0) =
      (mapa.filter (fun t => t.cor = c)).length + (if x = c then 1 else 0) :=
  filter_cor_set c mapa p { ler mapa p with cor := x } hp

/-- C24: after an attack that `validarAtaque` accepted.  If the attacker wins,
the attacker's color owns exactly one territory more, the defender's former
color exactly one less, every other color as many as before, and
`validarAtaque` now rejects the pair as AlliedTerritories in both directions.
If the defender wins, every territory keeps its owner. -/
theorem C24_owner_counts_after_attack (mapa : List Territorio)
    (atacante defensor r1 r2 : Nat)
    (hA : atacante < mapa.length) (hD : defensor < mapa.length)
    (hv : validarAtaque mapa atacante defensor = Except.ok ()) :
    (rolarDado r1 > rolarDado r2 →
      ((atacar mapa atacante defensor r1 r2).1.filter
          (fun t => t.cor = (ler mapa atacante).cor)).length =
        (mapa.filter (fun t => t.cor = (ler mapa atacante).cor)).length + 1 ∧
      ((atacar mapa atacante defensor r1 r2).1.filter
          (fun t => t.cor = (ler mapa defensor).cor)).length + 1 =
        (mapa.filter (fun t => t.cor = (ler mapa defensor).cor)).length ∧
      (∀ c : String, c ≠ (ler mapa atacante).cor → c ≠ (ler mapa defensor).cor →
        ((atacar mapa atacante defensor r1 r2).1.filter (fun t => t.cor = c)).length =
          (mapa.filter (fun t => t.cor = c)).length) ∧
      validarAtaque (atacar mapa atacante defensor r1 r2).1 atacante defensor =
        Except.error MotivoRejeicao.AlliedTerritories ∧
      validarAtaque (atacar mapa atacante defensor r1 r2).1 defensor atacante =
        Except.error MotivoRejeicao.AlliedTerritories) ∧
    (rolarDado r1 ≤ rolarDado r2 →
      ∀ k, (ler (atacar mapa atacante defensor r1 r2).1 k).cor = (ler mapa k).cor) := by
  obtain ⟨hne, hcor, h2⟩ := validarAtaque_ok mapa atacante defensor hv
  constructor
  · intro hwin
    rw [atacar_vitoria mapa atacante defensor r1 r2 hne hwin]
    have hD1 : defensor < (setCor mapa defensor (ler mapa atacante).cor).length := by
      rw [length_setCor]; exact hD
    have hA2 : atacante < (setTropas (setCor mapa defensor (ler mapa atacante).cor) defensor
        (Int.tdiv (ler mapa atacante).tropas 2)).length := by
      rw [length_setTropas, length_setCor]; exact hA
    have hcount : ∀ c : String,
        ((setTropas (setTropas (setCor mapa defensor (ler mapa atacante).cor) defensor
            (Int.tdiv (ler mapa atacante).tropas 2)) atacante
            ((ler mapa atacante).tropas - Int.tdiv (ler mapa atacante).tropas 2)).filter
          (fun t => t.cor = c)).length + (if (ler mapa defensor).cor = c then 1 else 0) =
        (mapa.filter (fun t => t.cor = c)).length +
          (if (ler mapa atacante).cor = c then 1 else 0) := by
      intro c
      rw [filter_cor_setTropas c _ atacante _ hA2, filter_cor_setTropas c _ defensor _ hD1]
      exact filter_cor_setCor c mapa defensor (ler mapa atacante).cor hD
    have hcorA : (ler (setTropas (setTropas (setCor mapa defensor (ler mapa atacante).cor)
        defensor (Int.tdiv (ler mapa atacante).tropas 2)) atacante
        ((ler mapa atacante).tropas - Int.tdiv (ler mapa atacante).tropas 2)) atacante).cor =
        (ler mapa atacante).cor := by
      rw [cor_setTropas, cor_setTropas, ler_setCor_ne _ defensor atacante _ (Ne.symm hne)]
    have hcorD : (ler (setTropas (setTropas (setCor mapa defensor (ler mapa atacante).cor)
        defensor (Int.tdiv (ler mapa atacante).tropas 2)) atacante
        ((ler mapa atacante).tropas - Int.tdiv (ler mapa atacante).tropas 2)) defensor).cor =
        (ler mapa atacante).cor := by
      rw [cor_setTropas, cor_setTropas, ler_setCor_same _ _ _ hD]
    refine ⟨?_, ?_, ?_, ?_, ?_⟩
    · have h := hcount (ler mapa atacante).cor
      rw [if_neg (Ne.symm hcor), if_pos rfl] at h
      omega
    · have h := hcount (ler mapa defensor).cor
      rw [if_pos rfl, if_neg hcor] at h
      omega
    · intro c hcA hcD
      have h := hcount c
      rw [if_neg (Ne.symm hcD), if_neg (Ne.symm hcA)] at h
      omega
    · simp only [validarAtaque, hne, hcorA, hcorD, if_false, if_true]
    · simp only [validarAtaque, Ne.symm hne, hcorA, hcorD, if_false, if_true]
  · intro hlose k
    rw [atacar_derrota mapa atacante defensor r1 r2 hlose]
    split
    · rw [cor_setTropas]
    · rfl

/-- C24 on the scenario map.  A (Azul) conquers B (Vermelho) with rolls 6
against 1: Azul goes from 2 territories to 3, Vermelho from 1 to 0, and
neither of A and B may attack the other any more.  With a tie of the rolls B
keeps its owner. -/
theorem C24_owner_counts_after_attack_witness :
    ((atacar cenario 0 1 5 0).1.filter (fun t => t.cor = "Azul")).length = 2 + 1 ∧
    ((atacar cenario 0 1 5 0).1.filter (fun t => t.cor = "Vermelho")).length + 1 = 1 ∧
    validarAtaque (atacar cenario 0 1 5 0).1 0 1 =
      Except.error MotivoRejeicao.AlliedTerritories ∧
    validarAtaque (atacar cenario 0 1 5 0).1 1 0 =
      Except.error MotivoRejeicao.AlliedTerritories ∧
    (ler (atacar cenario 0 1 0 0).1 1).cor = "Vermelho" :=
  ⟨((C24_owner_counts_after_attack cenario 0 1 5 0 (by decide) (by decide) rfl).1
      (by decide)).1,
   ((C24_owner_counts_after_attack cenario 0 1 5 0 (by decide) (by decide) rfl).1
      (by decide)).2.1,
   ((C24_owner_counts_after_attack cenario 0 1 5 0 (by decide) (by decide) rfl).1
      (by decide)).2.2.2.1,
   ((C24_owner_counts_after_attack cenario 0 1 5 0 (by decide) (by decide) rfl).1
      (by decide)).2.2.2.2,
   (C24_owner_counts_after_attack cenario 0 1 0 0 (by decide) (by decide) rfl).2
      (by decide) 1⟩

/-! ## Consequences for the missions -/

/-- A map on which the mission is already true makes `gerenciarBatalhas` end
in Victory at its first check, with nothing read. -/
theorem gerenciarBatalhas_vitoria_imediata (missao P : String) (mapa : List Territorio)
    (ent : Entrada) (hv : verificarMissao missao P mapa = true) :
    gerenciarBatalhas missao P mapa ent =
      some ⟨Termino.Victory, mapa, ent, [Evento.exibirMapa, Evento.missaoCumprida]⟩ := by
  have hit : iteracao missao P mapa ent =
      some ⟨Passo.vitoria, mapa, ent, [Evento.exibirMapa, Evento.missaoCumprida]⟩ := by
    simp only [iteracao, hv, if_true]
  unfold gerenciarBatalhas
  rw [laco_succ, hit]
  rfl

/-- C25: on a map of a single territory, `verificarMissao` on the mission
"Controlar todos os territórios de uma região" is true for every player
color, also one that owns nothing, the threshold `1 / 2` being 0; with that
mission the battle loop ends in Victory at its first check, before any
selection. -/
theorem C25_single_territory_region (mapa : List Territorio) (P : String)
    (h1 : mapa.length = 1) :
    verificarMissao "Controlar todos os territórios de uma região" P mapa = true ∧
    (∀ ent : Entrada,
      gerenciarBatalhas "Controlar todos os territórios de uma região" P mapa ent =
        some ⟨Termino.Victory, mapa, ent, [Evento.exibirMapa, Evento.missaoCumprida]⟩) := by
  have hv : verificarMissao "Controlar todos os territórios de uma região" P mapa = true := by
    have hcat := (verificarMissao_catalogo P mapa).2.2.2.2.2
    change verificarMissao "Controlar todos os territórios de uma região" P mapa = _ at hcat
    rw [hcat, h1]
    simp
  exact ⟨hv, fun ent => gerenciarBatalhas_vitoria_imediata _ P mapa ent hv⟩

/-- C25 on the map of the single territory T of Verde, for the player Azul,
who owns nothing: the mission is true and the loop ends in Victory with the
choices 1 and 1 unread. -/
theorem C25_single_territory_region_witness :
    (([⟨"T", "Verde", 3⟩] : List Territorio).filter (fun t => t.cor = "Azul")).length = 0 ∧
    verificarMissao "Controlar todos os territórios de uma região" "Azul"
      [⟨"T", "Verde", 3⟩] = true ∧
    gerenciarBatalhas "Controlar todos os territórios de uma região" "Azul"
        [⟨"T", "Verde", 3⟩] ⟨[1, 1], [0, 0], ['n']⟩ =
      some ⟨Termino.Victory, [⟨"T", "Verde", 3⟩], ⟨[1, 1], [0, 0], ['n']⟩,
        [Evento.exibirMapa, Evento.missaoCumprida]⟩ :=
  ⟨by decide,
   (C25_single_territory_region [⟨"T", "Verde", 3⟩] "Azul" rfl).1,
   (C25_single_territory_region [⟨"T", "Verde", 3⟩] "Azul" rfl).2 ⟨[1, 1], [0, 0], ['n']⟩⟩

/-- The longest run the loop of mission 1 finds is never longer than the
number of territories the counting loop finds. -/
theorem foldl_passoConsecutivos_le (P : String) :
    ∀ (l : List Territorio) (c m n : Nat), c ≤ n → m ≤ n →
      (l.foldl (passoConsecutivos P) (c, m)).2 ≤
        l.foldl (fun n t => if t.cor = P then n + 1 else n) n := by
  intro l
  induction l with
  | nil => intro c m n _ hm; exact hm
  | cons t l ih =>
    intro c m n hc hm
    simp only [List.foldl_cons]
    by_cases ho : t.cor = P
    · simp only [passoConsecutivos, ho, if_true]
      by_cases hgt : c + 1 > m
      · rw [if_pos hgt]
        exact ih (c + 1) (c + 1) (n + 1) (by omega) (by omega)
      · rw [if_neg hgt]
        exact ih (c + 1) m (n + 1) (by omega) (by omega)
    · simp only [passoConsecutivos, ho, if_false]
      exact ih 0 m n (Nat.zero_le _) hm

/-- C26: for every map and player color, when the mission "Conquistar 3
territórios consecutivos" evaluates to true so does "Conquistar territórios de
3 cores diferentes", and when "Controlar pelo menos 4 territórios" evaluates
to true so does "Conquistar territórios de 3 cores diferentes". -/
theorem C26_mission_implications (mapa : List Territorio) (P : String) :
    (verificarMissao "Conquistar 3 territórios consecutivos" P mapa = true →
      verificarMissao "Conquistar territórios de 3 cores diferentes" P mapa = true) ∧
    (verificarMissao "Controlar pelo menos 4 territórios" P mapa = true →
      verificarMissao "Conquistar territórios de 3 cores diferentes" P mapa = true) := by
  have c1 := (verificarMissao_catalogo P mapa).1
  have c3 := (verificarMissao_catalogo P mapa).2.2.1
  have c5 := (verificarMissao_catalogo P mapa).2.2.2.2.1
  change verificarMissao "Conquistar 3 territórios consecutivos" P mapa = _ at c1
  change verificarMissao "Controlar pelo menos 4 territórios" P mapa = _ at c3
  change verificarMissao "Conquistar territórios de 3 cores diferentes" P mapa = _ at c5
  have hle : maxConsecutivos P mapa ≤ territoriosControlados P mapa :=
    foldl_passoConsecutivos_le P mapa 0 0 0 (Nat.le_refl 0) (Nat.le_refl 0)
  rw [c1, c3, c5]
  simp only [decide_eq_true_eq, ge_iff_le]
  constructor
  · intro h; omega
  · intro h; omega

/-- C26 on a map of four territories of Azul: the missions of the 3
consecutive territories and of the 4 territories are true, and so is the
mission of the 3 colors. -/
theorem C26_mission_implications_witness :
    verificarMissao "Conquistar territórios de 3 cores diferentes" "Azul"
      [⟨"X", "Azul", 1⟩, ⟨"Y", "Azul", 1⟩, ⟨"Z", "Azul", 1⟩, ⟨"W", "Azul", 1⟩] = true :=
  (C26_mission_implications
    [⟨"X", "Azul", 1⟩, ⟨"Y", "Azul", 1⟩, ⟨"Z", "Azul", 1⟩, ⟨"W", "Azul", 1⟩] "Azul").1
    (by decide)

end War
